import Mathlib

/-!
Saga2 tile layer (`engines/saga2/tile.h`): a shallow embedding

C++ integers are modelled by their mathematical value (`Int` for the signed
types, `Nat` for the unsigned ones).  Bitwise operators work on the 32-bit
two's-complement pattern of an `int`, which is how the compiler evaluates
them after the integral promotions; narrowing casts wrap modulo `2 ^ 16`.
-/

namespace Saga2

/-! ## C integer arithmetic -/

/-- Bit pattern (an unsigned number below `2 ^ 32`) of a C `int`. -/
def bits32 (x : Int) : Nat := (x % 4294967296).toNat

/-- Value of a 32-bit pattern read back as a signed C `int`. -/
def ofBits32 (n : Nat) : Int :=
  if n % 4294967296 < 2147483648 then ((n % 4294967296 : Nat) : Int)
  else ((n % 4294967296 : Nat) : Int) - 4294967296

/-- C `a & b` on `int` operands. -/
def intAnd (a b : Int) : Int := ofBits32 (bits32 a &&& bits32 b)

/-- C `a | b` on `int` operands. -/
def intOr (a b : Int) : Int := ofBits32 (bits32 a ||| bits32 b)

/-- C `~a` on an `int` operand: every one of the 32 bits is flipped. -/
def intNot (a : Int) : Int := ofBits32 (4294967295 - bits32 a)

/-- C `a << k` on an `int` operand (two's-complement result; the shift count
is meant to be below 32, larger counts are undefined in C++). -/
def intShl (a : Int) (k : Nat) : Int := ofBits32 (bits32 a <<< k)

/-- C `a >> k` on an `int` operand (arithmetic shift). -/
def intShr (a : Int) (k : Nat) : Int := a / (2 ^ k : Int)

/-- The cast `(int16)x`. -/
def castInt16 (x : Int) : Int := (x + 32768) % 65536 - 32768

/-- The cast `(uint16)x`. -/
def castUint16 (x : Int) : Nat := (x % 65536).toNat

/-- The cast `(uint8)x`. -/
def castUint8 (x : Int) : Nat := (x % 256).toNat

/-- Range of the type `int16`. -/
def isInt16 (x : Int) : Prop := -32768 ≤ x ∧ x < 32768

instance (x : Int) : Decidable (isInt16 x) := by
  unfold isInt16; exact inferInstance

/-- The 16-bit pattern of an `int16` (or of any `int` after truncation). -/
def bits16 (x : Int) : Nat := (x % 65536).toNat

/-! ## Tile ID's and associated functions -/

/-- Modelled from the spec: the typedef of `TileID` lives in a header that is
not part of the sources at hand; the spec describes it as a packed 16-bit
unsigned integer (bank in the high bits, index in the low 10 bits). A value
`t` is a `TileID` when `t < 2 ^ 16`. -/
def isTileID (t : Nat) : Prop := t < 65536

instance (t : Nat) : Decidable (isTileID t) := by
  unfold isTileID; exact inferInstance

/-- Source: `makeTileID(int bank, int num)`, `(TileID)((bank << 10) | num)`. -/
def makeTileID (bank num : Int) : Nat :=
  castUint16 (intOr (intShl bank 10) num)

/-- Source: `TileID2Bank(TileID t, int16 &bank, int16 &num)`; the two output
parameters are returned as the pair `(bank, num)`. -/
def TileID2Bank (t : Nat) : Int × Int :=
  (castInt16 (intShr (t : Int) 10), castInt16 (intAnd (t : Int) 0x3ff))

/-! ## Inline functions -/

/-- Source: `calcSubTileMask(int u, int v)`, `(int16)(1 << ((u << 2) + v))`:
the terrain mask of the subtile at `(u, v)`, for `u` and `v` between 0 and 3. -/
def calcSubTileMask (u v : Int) : Int :=
  castInt16 (intShl 1 (intShl u 2 + v).toNat)

/-! ## Tile attributes -/

/-- Source: `struct TileAttrs`. The unsigned fields hold their value as a
natural number: `terrainMask` is a `uint16`, the others are `uint8`. -/
structure TileAttrs where
  terrainHeight : Nat
  height : Nat
  terrainMask : Nat
  fgdTerrain : Nat
  bgdTerrain : Nat
  reserved0 : List Nat
  maskRule : Nat
  altMask : Nat
  cornerHeight : List Nat
  cycleRange : Nat
  tileFlags : Nat
  reserved1 : Nat
  deriving Repr, DecidableEq

/-- Source: `TileAttrs::testTerrain(int16 mask)`. The local `terrain` starts
at 0 and receives `1 << fgdTerrain` when `terrainMask & mask` is non-zero,
then `1 << bgdTerrain` when `~terrainMask & mask` is non-zero; both tests
are evaluated on `int` after the integral promotions of `terrainMask`
(zero-extended) and `mask` (sign-extended). -/
def TileAttrs.testTerrain (a : TileAttrs) (mask : Int) : Int :=
  let terrain : Int := 0
  let terrain :=
    if intAnd (a.terrainMask : Int) mask ≠ 0 then intOr terrain (intShl 1 a.fgdTerrain)
    else terrain
  let terrain :=
    if intAnd (intNot (a.terrainMask : Int)) mask ≠ 0 then intOr terrain (intShl 1 a.bgdTerrain)
    else terrain
  terrain

/-- Source: `struct TileInfo` (data members). -/
structure TileInfo where
  offset : Nat
  attrs : TileAttrs
  deriving Repr, DecidableEq

/-- Source: `TileInfo::combinedTerrainMask()`. -/
def TileInfo.combinedTerrainMask (ti : TileInfo) : Int :=
  intOr (intShl 1 ti.attrs.fgdTerrain) (intShl 1 ti.attrs.bgdTerrain)

/-- Bit `k` of the 32-bit pattern of an `int` / `int32` value. -/
def intTestBit (x : Int) (k : Nat) : Bool := (bits32 x).testBit k

/-! ## Active items -/

/-- Source: the `group` member of the union inside `class ActiveItem`. -/
structure ActiveItemGroup where
  grDataOffset : Nat
  numStates : Nat
  uSize : Nat
  vSize : Nat
  animArea : Nat
  triggerWeight : Nat
  pad : Nat
  reserved0 : Nat
  reserved1 : Nat
  deriving Repr, DecidableEq

/-- Source: the `instance` member of the union inside `class ActiveItem`.
`groupID`, `u`, `v`, `h` are `int16`; `stateIndex`, `scriptFlags`, `targetU`,
`targetV` are `uint16`; `targetZ` and `worldNum` are `uint8`. -/
structure ActiveItemInstance where
  groupID : Int
  u : Int
  v : Int
  h : Int
  stateIndex : Nat
  scriptFlags : Nat
  targetU : Nat
  targetV : Nat
  targetZ : Nat
  worldNum : Nat
  deriving Repr, DecidableEq

/-- Source: `class ActiveItem` (data members, without the hash-chain
pointer). The source overlays the `group` and the `instance` payload in a
union and `itemType` tells which of the two is live; every method reads only
the payload of its own variant, so the two payloads are kept here as two
separate fields, `group` and `inst`. -/
structure ActiveItem where
  scriptClassID : Nat
  associationOffset : Nat
  numAssociations : Nat
  itemType : Nat
  group : ActiveItemGroup
  inst : ActiveItemInstance
  deriving Repr, DecidableEq

namespace ActiveItem

/-- Source: `ActiveItem::activeItemLocked = (1 << 8)`, the door is locked. -/
def activeItemLocked : Int := intShl 1 8

/-- Source: `ActiveItem::activeItemOpen = (1 << 9)`, the door is open (not used). -/
def activeItemOpen : Int := intShl 1 9

/-- Source: `ActiveItem::activeItemExclusive = (1 << 10)`, script semaphore. -/
def activeItemExclusive : Int := intShl 1 10

/-- Source: `ActiveItem::builtInBehavior()`, `(uint8)(instance.scriptFlags >> 13)`. -/
def builtInBehavior (ai : ActiveItem) : Nat :=
  castUint8 (intShr (ai.inst.scriptFlags : Int) 13)

/-- Source: `ActiveItem::isLocked()`, `(bool)(instance.scriptFlags & activeItemLocked)`. -/
def isLocked (ai : ActiveItem) : Bool :=
  decide (intAnd (ai.inst.scriptFlags : Int) activeItemLocked ≠ 0)

/-- Source: `ActiveItem::setLocked(bool val)`; the updated object is returned.
The compound assignments compute on `int` and store back into the `uint16`
field. -/
def setLocked (ai : ActiveItem) (val : Bool) : ActiveItem :=
  if val then
    { ai with inst := { ai.inst with
        scriptFlags := castUint16 (intOr (ai.inst.scriptFlags : Int) activeItemLocked) } }
  else
    { ai with inst := { ai.inst with
        scriptFlags := castUint16 (intAnd (ai.inst.scriptFlags : Int) (intNot activeItemLocked)) } }

/-- Source: `ActiveItem::isExclusive()`. -/
def isExclusive (ai : ActiveItem) : Bool :=
  decide (intAnd (ai.inst.scriptFlags : Int) activeItemExclusive ≠ 0)

/-- Source: `ActiveItem::setExclusive(bool val)`; the updated object is returned. -/
def setExclusive (ai : ActiveItem) (val : Bool) : ActiveItem :=
  if val then
    { ai with inst := { ai.inst with
        scriptFlags := castUint16 (intOr (ai.inst.scriptFlags : Int) activeItemExclusive) } }
  else
    { ai with inst := { ai.inst with
        scriptFlags := castUint16 (intAnd (ai.inst.scriptFlags : Int) (intNot activeItemExclusive)) } }

/-- Source: `ActiveItem::lockType()`, `(uint8)instance.scriptFlags`. -/
def lockType (ai : ActiveItem) : Nat :=
  castUint8 (ai.inst.scriptFlags : Int)

end ActiveItem

/-! ## Further C integer arithmetic -/

/-- C `a + b` on `int` operands, kept in 32 bits (two's-complement wrap). -/
def intAdd (a b : Int) : Int := ofBits32 (bits32 (a + b))

/-- C `a - b` on `int` operands, kept in 32 bits (two's-complement wrap). -/
def intSub (a b : Int) : Int := ofBits32 (bits32 (a - b))

/-! ## Subtile mask shifts -/

/-- Source: `subTileMaskUShift = 4`. -/
def subTileMaskUShift : Nat := 4

/-- Source: `subTileMaskVShift = 1`. -/
def subTileMaskVShift : Nat := 1

/-! ## Terrain types -/

/-- Source: `terrNumNormal = 0`, first enumerator of `enum terrainTypes`. -/
def terrNumNormal : Nat := 0
/-- Source: `enum terrainTypes`, next enumerator. -/
def terrNumEasy : Nat := terrNumNormal + 1
/-- Source: `enum terrainTypes`, next enumerator. -/
def terrNumRough : Nat := terrNumEasy + 1
/-- Source: `enum terrainTypes`, next enumerator. -/
def terrNumStone : Nat := terrNumRough + 1
/-- Source: `enum terrainTypes`, next enumerator. -/
def terrNumWood : Nat := terrNumStone + 1
/-- Source: `enum terrainTypes`, next enumerator. -/
def terrNumHedge : Nat := terrNumWood + 1
/-- Source: `enum terrainTypes`, next enumerator. -/
def terrNumTree : Nat := terrNumHedge + 1
/-- Source: `enum terrainTypes`, next enumerator. -/
def terrNumWater : Nat := terrNumTree + 1
/-- Source: `enum terrainTypes`, next enumerator. -/
def terrNumFall : Nat := terrNumWater + 1
/-- Source: `enum terrainTypes`, next enumerator. -/
def terrNumRamp : Nat := terrNumFall + 1
/-- Source: `enum terrainTypes`, next enumerator. -/
def terrNumStair : Nat := terrNumRamp + 1
/-- Source: `enum terrainTypes`, next enumerator. -/
def terrNumLadder : Nat := terrNumStair + 1
/-- Source: `enum terrainTypes`, next enumerator. -/
def terrNumObject : Nat := terrNumLadder + 1
/-- Source: `enum terrainTypes`, next enumerator. -/
def terrNumActive : Nat := terrNumObject + 1
/-- Source: `enum terrainTypes`, next enumerator. -/
def terrNumSlash : Nat := terrNumActive + 1
/-- Source: `enum terrainTypes`, next enumerator. -/
def terrNumBash : Nat := terrNumSlash + 1
/-- Source: `enum terrainTypes`, next enumerator. -/
def terrNumIce : Nat := terrNumBash + 1
/-- Source: `enum terrainTypes`, next enumerator. -/
def terrNumCold : Nat := terrNumIce + 1
/-- Source: `enum terrainTypes`, next enumerator. -/
def terrNumHot : Nat := terrNumCold + 1
/-- Source: `enum terrainTypes`, last enumerator. -/
def terrNumFurniture : Nat := terrNumHot + 1

/-- Source: `enum terrainTypes`, the enumerators in their order of
declaration. -/
def terrainTypes : List Nat :=
  [terrNumNormal, terrNumEasy, terrNumRough, terrNumStone, terrNumWood, terrNumHedge,
   terrNumTree, terrNumWater, terrNumFall, terrNumRamp, terrNumStair, terrNumLadder,
   terrNumObject, terrNumActive, terrNumSlash, terrNumBash, terrNumIce, terrNumCold,
   terrNumHot, terrNumFurniture]

/-- Source: `terrainNormal = (1 << terrNumNormal)`, clear terrain. -/
def terrainNormal : Int := intShl 1 terrNumNormal
/-- Source: `terrainEasy = (1 << terrNumEasy)`, easy terrain (path). -/
def terrainEasy : Int := intShl 1 terrNumEasy
/-- Source: `terrainRough = (1 << terrNumRough)`, rough terrain (shrub). -/
def terrainRough : Int := intShl 1 terrNumRough
/-- Source: `terrainStone = (1 << terrNumStone)`, stone obstacle. -/
def terrainStone : Int := intShl 1 terrNumStone
/-- Source: `terrainWood = (1 << terrNumWood)`, wood obstacle. -/
def terrainWood : Int := intShl 1 terrNumWood
/-- Source: `terrainHedge = (1 << terrNumHedge)`, penetrable obstacle. -/
def terrainHedge : Int := intShl 1 terrNumHedge
/-- Source: `terrainTree = (1 << terrNumTree)`, tree obstacle. -/
def terrainTree : Int := intShl 1 terrNumTree
/-- Source: `terrainWater = (1 << terrNumWater)`, water. -/
def terrainWater : Int := intShl 1 terrNumWater
/-- Source: `terrainFall = (1 << terrNumFall)`, does not support things. -/
def terrainFall : Int := intShl 1 terrNumFall
/-- Source: `terrainRamp = (1 << terrNumRamp)`, low friction slope. -/
def terrainRamp : Int := intShl 1 terrNumRamp
/-- Source: `terrainStair = (1 << terrNumStair)`, high friction slope. -/
def terrainStair : Int := intShl 1 terrNumStair
/-- Source: `terrainLadder = (1 << terrNumLadder)`, vertical climb. -/
def terrainLadder : Int := intShl 1 terrNumLadder
/-- Source: `terrainObject = (1 << terrNumObject)`, collision with other object. -/
def terrainObject : Int := intShl 1 terrNumObject
/-- Source: `terrainActive = (1 << terrNumActive)`, tile is sensitive to walking on. -/
def terrainActive : Int := intShl 1 terrNumActive
/-- Source: `terrainSlash = (1 << terrNumSlash)`. -/
def terrainSlash : Int := intShl 1 terrNumSlash
/-- Source: `terrainBash = (1 << terrNumBash)`. -/
def terrainBash : Int := intShl 1 terrNumBash
/-- Source: `terrainIce = (1 << terrNumIce)`. -/
def terrainIce : Int := intShl 1 terrNumIce
/-- Source: `terrainCold = (1 << terrNumCold)`. -/
def terrainCold : Int := intShl 1 terrNumCold
/-- Source: `terrainHot = (1 << terrNumHot)`. -/
def terrainHot : Int := intShl 1 terrNumHot
/-- Source: `terrainFurniture = (1 << terrNumFurniture)`. -/
def terrainFurniture : Int := intShl 1 terrNumFurniture

/-- C `a | b | c | ...` on `int` operands, evaluated left to right. -/
def intOrList : List Int → Int
  | [] => 0
  | x :: xs => xs.foldl intOr x

/-- Source: `terrainSurface`, the terrain types which can have sloped
surfaces. -/
def terrainSurface : Int :=
  intOrList [terrainNormal, terrainEasy, terrainRough, terrainWater, terrainRamp,
    terrainCold, terrainStair]

/-- Source: `terrainSolidSurface`. -/
def terrainSolidSurface : Int :=
  intOrList [terrainNormal, terrainEasy, terrainRough, terrainRamp, terrainCold, terrainStair]

/-- Source: `terrainRaised`, the terrain types which can have raised
surfaces. -/
def terrainRaised : Int :=
  intOrList [terrainStone, terrainWood, terrainTree, terrainHedge, terrainFurniture]

/-- Source: `terrainSupportingRaised`. -/
def terrainSupportingRaised : Int :=
  intOrList [terrainStone, terrainWood, terrainFurniture]

/-- Source: `terrainImpassable`. -/
def terrainImpassable : Int :=
  intOrList [terrainStone, terrainWood, terrainTree, terrainHedge, terrainFurniture]

/-- Source: `terrainSlow`. -/
def terrainSlow : Int :=
  intOrList [terrainRough, terrainWater, terrainLadder]

/-- Source: `terrainAverage`. -/
def terrainAverage : Int :=
  intOrList [terrainNormal, terrainRamp, terrainStair]

/-- Source: `terrainInsubstantial`. -/
def terrainInsubstantial : Int :=
  intOrList [terrainFall, terrainLadder, terrainSlash, terrainBash]

/-- Source: `terrainTransparent`. -/
def terrainTransparent : Int :=
  intOrList [terrainSurface, terrainInsubstantial]

/-! ## Tile coordinates -/

/-- Modelled from the spec: `TilePoint` is declared in a header that is not
part of the sources at hand; the spec uses it as a point of the tile grid
with signed 16-bit coordinates `u`, `v` and a height `z`. -/
structure TilePoint where
  u : Int
  v : Int
  z : Int
  deriving Repr, DecidableEq

/-- Modelled from the spec: `TileRegion` is declared outside the sources at
hand; the spec uses it as a rectangle given by its `min` corner and its
exclusive `max` corner. -/
structure TileRegion where
  min : TilePoint
  max : TilePoint
  deriving Repr, DecidableEq

/-- Every coordinate of the point is within `int16`. -/
def TilePoint.isInt16 (p : TilePoint) : Prop :=
  Saga2.isInt16 p.u ∧ Saga2.isInt16 p.v ∧ Saga2.isInt16 p.z

instance (p : TilePoint) : Decidable p.isInt16 := by
  unfold TilePoint.isInt16; exact inferInstance

/-! ## Active items: behavior kinds, range test, lock toggle -/

namespace ActiveItem

/-- Source: `ActiveItem::builtInNone = 0`, TAG handled by SAGA. -/
def builtInNone : Nat := 0

/-- Source: `ActiveItem::builtInLamp`, TAG has lamp behavior. -/
def builtInLamp : Nat := builtInNone + 1

/-- Source: `ActiveItem::builtInDoor`, TAG has door behavior. -/
def builtInDoor : Nat := builtInLamp + 1

/-- Source: `ActiveItem::builtInTransporter`, TAG has transporter behavior. -/
def builtInTransporter : Nat := builtInDoor + 1

/-- Source: the group method
`ActiveItem::inRange(ActiveItem *ins, const TilePoint &loc, int16 range)`;
`this` is the group `g`. The operands are promoted to `int` and the sums
and differences are computed on `int`. -/
def inRange (g : ActiveItem) (ins : ActiveItem) (loc : TilePoint) (range : Int) : Bool :=
  decide (loc.u ≥ intSub ins.inst.u range)
    && decide (loc.v ≥ intSub ins.inst.v range)
    && decide (loc.u < intAdd (intAdd ins.inst.u (g.group.uSize : Int)) range)
    && decide (loc.v < intAdd (intAdd ins.inst.v (g.group.vSize : Int)) range)

/-- Modelled from the spec: the body of
`ActiveItem::acceptLockToggle(ObjectID enactor, uint8 keyCode)` is not part
of the sources at hand, only its declaration is. The spec says that it
validates the supplied key code against `lockType()` before clearing or
setting the lock bit, and that with a mismatched key code it leaves the lock
bit unchanged and returns false. The result is the returned boolean together
with the updated instance. -/
def acceptLockToggle (ai : ActiveItem) (_enactor : Nat) (keyCode : Nat) : Bool × ActiveItem :=
  if keyCode = ai.lockType then (true, ai.setLocked (!ai.isLocked))
  else (false, ai)

end ActiveItem

/-! ## Platforms -/

/-- Source: `struct TileRef`: the tile, its flags and its height above the
platform. -/
structure TileRef where
  tile : Nat
  flags : Nat
  tileHeight : Nat
  deriving Repr, DecidableEq

/-- Source: `struct Platform` (data members); `height`, `highestPixel` and
`flags` are `uint16`, `tiles` is the square grid of tile references, row by
row. -/
structure Platform where
  height : Nat
  highestPixel : Nat
  flags : Nat
  tiles : List (List TileRef)
  deriving Repr, DecidableEq

/-- Source: `Platform::roofRipID()`, `(uint16)(flags & 0x0FFF)`. -/
def Platform.roofRipID (pl : Platform) : Nat :=
  castUint16 (intAnd (pl.flags : Int) 0x0FFF)

/-- Source: `plCutaway = (1 << 0)`, remove when player underneath. -/
def plCutaway : Int := intShl 1 0

/-- Source: `plVisible = (1 << 15)`, platform is visible. -/
def plVisible : Int := intShl 1 15

/-- Source: `plModified = (1 << 14)`, platform has been changed. -/
def plModified : Int := intShl 1 14

/-- Source: `plCutUPos = (1 << 13)`. -/
def plCutUPos : Int := intShl 1 13

/-- Source: `plCutUNeg = (1 << 13)`. -/
def plCutUNeg : Int := intShl 1 13

/-- Source: `plCutVPos = (1 << 13)`. -/
def plCutVPos : Int := intShl 1 13

/-- Source: `plCutVNeg = (1 << 13)`. -/
def plCutVNeg : Int := intShl 1 13

/-- Source: `platformRipped(Platform *pl)`. The global `rippedRoofID` (a
`uint16`) is passed as the first argument. -/
def platformRipped (rippedRoofID : Nat) (pl : Platform) : Bool :=
  if rippedRoofID ≠ 0 then decide ((pl.roofRipID : Int) = (rippedRoofID : Int))
  else false

/-! ## Metatile iterator -/

/-- Source: `class MetaTileIterator` (data members). -/
structure MetaTileIterator where
  mCoords : TilePoint
  region : TileRegion
  mapNum : Int
  deriving Repr, DecidableEq

set_option linter.dupNamespace false

/-- Source: the constructor
`MetaTileIterator::MetaTileIterator(int16 map, const TileRegion &reg)`.
The constants `platShift` and `platMask` are declared outside the sources at
hand and are parameters here. The constructor does not assign `mCoords`, so
its content is passed through from `mCoords`, and the other coordinates are
stored into `int16` fields. -/
def MetaTileIterator.MetaTileIterator (platShift : Nat) (platMask : Int)
    (mCoords : TilePoint) (map : Int) (reg : TileRegion) : MetaTileIterator :=
  { mCoords := mCoords
    mapNum := map
    region :=
      { min :=
          { u := castInt16 (intShr reg.min.u platShift)
            v := castInt16 (intShr reg.min.v platShift)
            z := 0 }
        max :=
          { u := castInt16 (intShr (intAdd reg.max.u platMask) platShift)
            v := castInt16 (intShr (intAdd reg.max.v platMask) platShift)
            z := 0 } } }

/-! ## Instance states of active items -/

/-- Source: the global `byte **stateArray`, "the array of active item state
arrays": one array of state bytes per map, read here as a map from the map
number and the state index to a byte. -/
abbrev StateArray := Int → Nat → Nat

namespace ActiveItem

/-- Source: `ActiveItem::getInstanceState(int16 mapNum)`,
`stateArray[mapNum][instance.stateIndex]`; the global array is passed as an
argument. -/
def getInstanceState (ai : ActiveItem) (stateArray : StateArray) (mapNum : Int) : Nat :=
  stateArray mapNum ai.inst.stateIndex

/-- Source: `ActiveItem::setInstanceState(int16 mapNum, uint8 state)`,
`stateArray[mapNum][instance.stateIndex] = state`. The method writes one
entry of the global array and nothing of the object; the object and the
updated array are returned. -/
def setInstanceState (ai : ActiveItem) (stateArray : StateArray) (mapNum : Int) (state : Nat) :
    ActiveItem × StateArray :=
  (ai, fun m i => if m = mapNum ∧ i = ai.inst.stateIndex then state else stateArray m i)

end ActiveItem

/-! ## Lemmas on the integer model -/

theorem bits32_natCast {n : Nat} (h : n < 4294967296) : bits32 (n : Int) = n := by
  unfold bits32; omega

theorem bits32_lt (x : Int) : bits32 x < 4294967296 := by
  unfold bits32; omega

theorem ofBits32_of_lt {n : Nat} (h : n < 2147483648) : ofBits32 n = (n : Int) := by
  unfold ofBits32
  have : n % 4294967296 = n := Nat.mod_eq_of_lt (by omega)
  rw [this, if_pos h]

theorem bits32_ofBits32 {n : Nat} (h : n < 4294967296) : bits32 (ofBits32 n) = n := by
  unfold bits32 ofBits32
  have : n % 4294967296 = n := Nat.mod_eq_of_lt h
  rw [this]
  split <;> omega

theorem ofBits32_eq_zero_iff {n : Nat} (h : n < 4294967296) : ofBits32 n = 0 ↔ n = 0 := by
  unfold ofBits32
  have : n % 4294967296 = n := Nat.mod_eq_of_lt h
  rw [this]
  split <;> omega

theorem TileID2Bank_eq {t : Nat} (h : isTileID t) :
    TileID2Bank t = (((t / 1024 : Nat) : Int), ((t % 1024 : Nat) : Int)) := by
  unfold isTileID at h
  have h1 : intShr (t : Int) 10 = ((t / 1024 : Nat) : Int) := by
    unfold intShr; norm_num
  have h2 : intAnd (t : Int) 0x3ff = ((t % 1024 : Nat) : Int) := by
    unfold intAnd
    have e1 : bits32 (t : Int) = t := bits32_natCast (by omega)
    have e2 : bits32 (0x3ff : Int) = 2 ^ 10 - 1 := by decide
    rw [e1, e2, Nat.and_pow_two_sub_one_eq_mod]
    exact ofBits32_of_lt (by omega)
  unfold TileID2Bank
  rw [h1, h2]
  unfold castInt16
  ext <;> simp <;> omega

theorem makeTileID_eq {bank num : Nat} (hb : bank < 64) (hn : num < 1024) :
    makeTileID (bank : Int) (num : Int) = bank * 1024 + num := by
  unfold makeTileID
  have h1 : intShl (bank : Int) 10 = ((bank * 1024 : Nat) : Int) := by
    unfold intShl
    rw [bits32_natCast (by omega), Nat.shiftLeft_eq]
    exact ofBits32_of_lt (by omega)
  have h2 : intOr ((bank * 1024 : Nat) : Int) (num : Int) = ((bank * 1024 + num : Nat) : Int) := by
    unfold intOr
    rw [bits32_natCast (by omega), bits32_natCast (by omega)]
    have : bank * 1024 ||| num = bank * 1024 + num := by
      have := Nat.mul_add_lt_is_or (show num < 2 ^ 10 by omega) bank
      rw [Nat.mul_comm bank 1024]
      exact this.symm
    rw [this]
    exact ofBits32_of_lt (by omega)
  rw [h1, h2]
  unfold castUint16
  omega

theorem bits32_intAnd (a b : Int) : bits32 (intAnd a b) = bits32 a &&& bits32 b := by
  unfold intAnd
  exact bits32_ofBits32 (Nat.and_lt_two_pow _ (show bits32 b < 2 ^ 32 from bits32_lt b))

theorem bits32_intOr (a b : Int) : bits32 (intOr a b) = bits32 a ||| bits32 b := by
  unfold intOr
  exact bits32_ofBits32
    (Nat.or_lt_two_pow (show bits32 a < 2 ^ 32 from bits32_lt a) (show bits32 b < 2 ^ 32 from bits32_lt b))

theorem bits32_intNot (a : Int) : bits32 (intNot a) = 4294967295 - bits32 a := by
  unfold intNot
  exact bits32_ofBits32 (by omega)

theorem bits32_intShl_one {k : Nat} (hk : k < 32) : bits32 (intShl 1 k) = 2 ^ k := by
  unfold intShl
  have h1 : bits32 1 = 1 := by decide
  rw [h1, Nat.shiftLeft_eq, Nat.one_mul]
  exact bits32_ofBits32 (Nat.pow_lt_pow_right (by decide) hk)

theorem bits32_eq_zero_iff (x : Int) (h : -2147483648 ≤ x ∧ x < 2147483648) :
    bits32 x = 0 ↔ x = 0 := by
  unfold bits32; omega

theorem intAnd_eq_zero_iff (a b : Int) : intAnd a b = 0 ↔ bits32 a &&& bits32 b = 0 := by
  unfold intAnd
  exact ofBits32_eq_zero_iff (Nat.and_lt_two_pow _ (show bits32 b < 2 ^ 32 from bits32_lt b))

theorem testBit_compl32 {x : Nat} (h : x < 4294967296) (i : Nat) :
    (4294967295 - x).testBit i = (decide (i < 32) && !x.testBit i) := by
  have := Nat.testBit_two_pow_sub_succ (show x < 2 ^ 32 by omega) i
  have e : 4294967295 - x = 2 ^ 32 - (x + 1) := by omega
  rw [e, this]

theorem nat_ne_zero_iff_testBit (n : Nat) : n ≠ 0 ↔ ∃ i, n.testBit i = true := by
  constructor
  · exact Nat.ne_zero_implies_bit_true
  · rintro ⟨i, hi⟩ h0
    rw [h0] at hi
    simp at hi

theorem testBit_bits16 (m : Int) (i : Nat) :
    (bits16 m).testBit i = (decide (i < 16) && (bits32 m).testBit i) := by
  have e : bits16 m = bits32 m % 2 ^ 16 := by
    unfold bits16 bits32; omega
  rw [e, Nat.testBit_mod_two_pow]

theorem testBit_uint16_ge {n i : Nat} (h : n < 65536) (hi : 16 ≤ i) : n.testBit i = false := by
  apply Nat.testBit_lt_two_pow
  calc n < 2 ^ 16 := by omega
    _ ≤ 2 ^ i := Nat.pow_le_pow_right (by decide) hi

/-- The bit pattern returned by `testTerrain`, as a function of the two tests. -/
theorem bits32_testTerrain (a : TileAttrs) (m : Int)
    (hf : a.fgdTerrain < 32) (hb : a.bgdTerrain < 32) :
    bits32 (a.testTerrain m) =
      ((if intAnd (a.terrainMask : Int) m ≠ 0 then 2 ^ a.fgdTerrain else 0) |||
       (if intAnd (intNot (a.terrainMask : Int)) m ≠ 0 then 2 ^ a.bgdTerrain else 0)) := by
  have h0 : bits32 0 = 0 := by decide
  unfold TileAttrs.testTerrain
  by_cases c1 : intAnd (a.terrainMask : Int) m ≠ 0 <;>
  by_cases c2 : intAnd (intNot (a.terrainMask : Int)) m ≠ 0
  · simp only [if_pos c1, if_pos c2, bits32_intOr, bits32_intShl_one hf,
      bits32_intShl_one hb, h0, Nat.zero_or]
  · simp only [if_pos c1, if_neg c2, bits32_intOr, bits32_intShl_one hf, h0, Nat.zero_or,
      Nat.or_zero]
  · simp only [if_neg c1, if_pos c2, bits32_intOr, bits32_intShl_one hb, h0, Nat.zero_or]
  · simp only [if_neg c1, if_neg c2, h0, Nat.or_zero]

/-- The first test of `testTerrain` succeeds exactly when one of the 16
selector bits is set in both operands. -/
theorem fgd_test_iff (tm : Nat) (m : Int) (htm : tm < 65536) :
    intAnd (tm : Int) m ≠ 0 ↔
      ∃ i, i < 16 ∧ tm.testBit i = true ∧ (bits16 m).testBit i = true := by
  rw [Ne, intAnd_eq_zero_iff, bits32_natCast (by omega), ← Ne, nat_ne_zero_iff_testBit]
  constructor
  · rintro ⟨i, hi⟩
    rw [Nat.testBit_and, Bool.and_eq_true] at hi
    have hlt : i < 16 := by
      by_contra hge
      rw [testBit_uint16_ge htm (by omega)] at hi
      exact absurd hi.1 (by decide)
    exact ⟨i, hlt, hi.1, by rw [testBit_bits16]; simp [hlt, hi.2]⟩
  · rintro ⟨i, hlt, h1, h2⟩
    rw [testBit_bits16] at h2
    simp [hlt] at h2
    exact ⟨i, by rw [Nat.testBit_and, h1, h2]; rfl⟩

/-- The second test of `testTerrain`: because `mask` is sign-extended and
`~terrainMask` has its upper 16 bits set, it succeeds for every negative
mask, and otherwise exactly when a selector bit of the mask is clear in
`terrainMask`. -/
theorem bgd_test_iff (tm : Nat) (m : Int) (htm : tm < 65536) (hm : isInt16 m) :
    intAnd (intNot (tm : Int)) m ≠ 0 ↔
      (m < 0 ∨ ∃ i, i < 16 ∧ (bits16 m).testBit i = true ∧ tm.testBit i = false) := by
  unfold isInt16 at hm
  rw [Ne, intAnd_eq_zero_iff, bits32_intNot, bits32_natCast (by omega), ← Ne,
    nat_ne_zero_iff_testBit]
  constructor
  · rintro ⟨i, hi⟩
    rw [Nat.testBit_and, testBit_compl32 (by omega), Bool.and_eq_true, Bool.and_eq_true] at hi
    obtain ⟨⟨h32, hclr⟩, hset⟩ := hi
    by_cases hneg : m < 0
    · exact Or.inl hneg
    · right
      have hlt : i < 16 := by
        by_contra hge
        have hb : bits32 m < 2 ^ i := by
          have : bits32 m < 2 ^ 16 := by unfold bits32; omega
          exact lt_of_lt_of_le this (Nat.pow_le_pow_right (by decide) (by omega))
        rw [Nat.testBit_lt_two_pow hb] at hset
        exact absurd hset (by decide)
      refine ⟨i, hlt, ?_, by simpa using hclr⟩
      rw [testBit_bits16]; simp [hlt, hset]
  · rintro (hneg | ⟨i, hlt, hset, hclr⟩)
    · refine ⟨31, ?_⟩
      rw [Nat.testBit_and, testBit_compl32 (by omega),
        testBit_uint16_ge htm (by decide)]
      have : (bits32 m).testBit 31 = true := by
        rw [Nat.testBit_to_div_mod]
        unfold bits32
        simp only [decide_eq_true_eq]
        omega
      rw [this]; rfl
    · rw [testBit_bits16] at hset
      simp [hlt] at hset
      refine ⟨i, ?_⟩
      rw [Nat.testBit_and, testBit_compl32 (by omega), hset, hclr]
      simp; omega

theorem and_two_pow_ne_zero_iff (n k : Nat) : n &&& 2 ^ k ≠ 0 ↔ n.testBit k = true := by
  rw [nat_ne_zero_iff_testBit]
  constructor
  · rintro ⟨i, hi⟩
    rw [Nat.testBit_and, Nat.testBit_two_pow, Bool.and_eq_true, decide_eq_true_eq] at hi
    rw [hi.2]; exact hi.1
  · intro h
    exact ⟨k, by rw [Nat.testBit_and, Nat.testBit_two_pow, h]; simp⟩

/-- Reading one flag of a 16-bit flag word with `word & (1 << k)`. -/
theorem flag_test (sf k : Nat) (h : sf < 65536) (hk : k < 32) :
    decide (intAnd (sf : Int) (intShl 1 k) ≠ 0) = sf.testBit k := by
  have : intAnd (sf : Int) (intShl 1 k) ≠ 0 ↔ sf.testBit k = true := by
    rw [Ne, intAnd_eq_zero_iff, bits32_natCast (by omega), bits32_intShl_one hk, ← Ne,
      and_two_pow_ne_zero_iff]
  cases hb : sf.testBit k
  · simp only [decide_eq_false_iff_not]; rw [this, hb]; decide
  · simp only [decide_eq_true_eq]; rw [this, hb]

/-- Storing `word |= (1 << k)` into a 16-bit flag word. -/
theorem flag_set (sf k : Nat) (h : sf < 65536) (hk : k < 16) :
    castUint16 (intOr (sf : Int) (intShl 1 k)) = sf ||| 2 ^ k := by
  have hlt : sf ||| 2 ^ k < 2 ^ 16 :=
    Nat.or_lt_two_pow (by omega) (Nat.pow_lt_pow_right (by decide) hk)
  unfold intOr
  rw [bits32_natCast (by omega), bits32_intShl_one (by omega), ofBits32_of_lt (by omega)]
  unfold castUint16; omega

/-- Storing `word &= ~(1 << k)` into a 16-bit flag word. -/
theorem flag_clear (sf k : Nat) (h : sf < 65536) (hk : k < 16) :
    castUint16 (intAnd (sf : Int) (intNot (intShl 1 k))) = sf &&& (4294967295 - 2 ^ k) := by
  have hlt : sf &&& (4294967295 - 2 ^ k) < 2 ^ 16 := by
    rw [Nat.and_comm]; exact Nat.and_lt_two_pow _ (by omega)
  unfold intAnd
  rw [bits32_natCast (by omega), bits32_intNot, bits32_intShl_one (by omega),
    ofBits32_of_lt (by omega)]
  unfold castUint16; omega

theorem flag_set_testBit (sf k i : Nat) :
    (sf ||| 2 ^ k).testBit i = (sf.testBit i || decide (k = i)) := by
  rw [Nat.testBit_or, Nat.testBit_two_pow]

theorem flag_clear_testBit (sf k i : Nat) (h : sf < 65536) (hk : k < 16) :
    (sf &&& (4294967295 - 2 ^ k)).testBit i = (sf.testBit i && !decide (k = i)) := by
  have h2 : 2 ^ k < 4294967296 :=
    lt_trans (Nat.pow_lt_pow_right (by decide) hk) (by decide)
  rw [Nat.testBit_and, testBit_compl32 h2, Nat.testBit_two_pow]
  by_cases hi : i < 32
  · simp [hi]
  · rw [testBit_uint16_ge h (by omega)]; simp

/-! ## Tile ID's -/

/-- C1: for every 16-bit `TileID` `t`, rebuilding the identifier with
`makeTileID` from the pair `(bank, num)` produced by `TileID2Bank t` gives
back `t`. -/
theorem makeTileID_TileID2Bank (t : Nat) (ht : isTileID t) :
    makeTileID (TileID2Bank t).1 (TileID2Bank t).2 = t := by
  have hlt : t < 65536 := ht
  rw [TileID2Bank_eq ht]
  show makeTileID ((t / 1024 : Nat) : Int) ((t % 1024 : Nat) : Int) = t
  rw [makeTileID_eq (by omega) (by omega)]
  omega

theorem makeTileID_TileID2Bank_witness :
    isTileID 54321 ∧ makeTileID (TileID2Bank 54321).1 (TileID2Bank 54321).2 = 54321 :=
  ⟨by decide, makeTileID_TileID2Bank 54321 (by decide)⟩

/-- C2: for every 16-bit `TileID` `t`, `TileID2Bank t` yields
`num = t mod 1024` with `0 ≤ num < 1024` and `bank = t div 1024` with
`0 ≤ bank < 64`. -/
theorem TileID2Bank_bank_num (t : Nat) (ht : isTileID t) :
    (TileID2Bank t).2 = ((t % 1024 : Nat) : Int) ∧
    0 ≤ (TileID2Bank t).2 ∧ (TileID2Bank t).2 < 1024 ∧
    (TileID2Bank t).1 = ((t / 1024 : Nat) : Int) ∧
    0 ≤ (TileID2Bank t).1 ∧ (TileID2Bank t).1 < 64 := by
  have hlt : t < 65536 := ht
  rw [TileID2Bank_eq ht]
  refine ⟨rfl, ?_, ?_, rfl, ?_, ?_⟩ <;> simp only <;> omega

theorem TileID2Bank_bank_num_witness :
    isTileID 54321 ∧ (TileID2Bank 54321).2 = ((54321 % 1024 : Nat) : Int) ∧
    0 ≤ (TileID2Bank 54321).2 ∧ (TileID2Bank 54321).2 < 1024 ∧
    (TileID2Bank 54321).1 = ((54321 / 1024 : Nat) : Int) ∧
    0 ≤ (TileID2Bank 54321).1 ∧ (TileID2Bank 54321).1 < 64 :=
  ⟨by decide, TileID2Bank_bank_num 54321 (by decide)⟩

/-- C3: for every `bank` with `0 ≤ bank < 64` and every `num` with
`0 ≤ num < 1024`, `TileID2Bank (makeTileID bank num)` is exactly
`(bank, num)`; hence `makeTileID` is injective on such pairs: any other pair
in range with the same identifier is the same pair. -/
theorem TileID2Bank_makeTileID (bank num : Int)
    (hb : 0 ≤ bank ∧ bank < 64) (hn : 0 ≤ num ∧ num < 1024) :
    TileID2Bank (makeTileID bank num) = (bank, num) ∧
    ∀ bank' num' : Int, 0 ≤ bank' ∧ bank' < 64 → 0 ≤ num' ∧ num' < 1024 →
      makeTileID bank' num' = makeTileID bank num → bank' = bank ∧ num' = num := by
  have key : ∀ b n : Int, 0 ≤ b ∧ b < 64 → 0 ≤ n ∧ n < 1024 →
      TileID2Bank (makeTileID b n) = (b, n) := by
    intro b n hb hn
    obtain ⟨b', rfl⟩ := Int.eq_ofNat_of_zero_le hb.1
    obtain ⟨n', rfl⟩ := Int.eq_ofNat_of_zero_le hn.1
    have hb' : b' < 64 := by omega
    have hn' : n' < 1024 := by omega
    rw [makeTileID_eq hb' hn', TileID2Bank_eq (show b' * 1024 + n' < 65536 by omega)]
    have e1 : (b' * 1024 + n') / 1024 = b' := by omega
    have e2 : (b' * 1024 + n') % 1024 = n' := by omega
    rw [e1, e2]
  refine ⟨key bank num hb hn, ?_⟩
  intro bank' num' hb' hn' heq
  have h1 := key bank' num' hb' hn'
  rw [heq, key bank num hb hn] at h1
  exact ⟨(congrArg Prod.fst h1).symm, (congrArg Prod.snd h1).symm⟩

theorem TileID2Bank_makeTileID_witness :
    (0 ≤ (5 : Int) ∧ (5 : Int) < 64) ∧ (0 ≤ (700 : Int) ∧ (700 : Int) < 1024) ∧
    (TileID2Bank (makeTileID 5 700) = (5, 700) ∧
     ∀ bank' num' : Int, 0 ≤ bank' ∧ bank' < 64 → 0 ≤ num' ∧ num' < 1024 →
      makeTileID bank' num' = makeTileID 5 700 → bank' = 5 ∧ num' = 700) :=
  ⟨by decide, by decide, TileID2Bank_makeTileID 5 700 (by decide) (by decide)⟩

/-! ## Terrain tests -/

theorem bits32_combinedTerrainMask (ti : TileInfo)
    (hf : ti.attrs.fgdTerrain < 32) (hb : ti.attrs.bgdTerrain < 32) :
    bits32 ti.combinedTerrainMask = 2 ^ ti.attrs.fgdTerrain ||| 2 ^ ti.attrs.bgdTerrain := by
  unfold TileInfo.combinedTerrainMask
  rw [bits32_intOr, bits32_intShl_one hf, bits32_intShl_one hb]

/-- Bit `k` of the value returned by `testTerrain`. -/
theorem intTestBit_testTerrain (a : TileAttrs) (m : Int) (k : Nat)
    (hf : a.fgdTerrain < 32) (hb : a.bgdTerrain < 32) :
    intTestBit (a.testTerrain m) k =
      ((decide (intAnd (a.terrainMask : Int) m ≠ 0) && decide (a.fgdTerrain = k)) ||
       (decide (intAnd (intNot (a.terrainMask : Int)) m ≠ 0) && decide (a.bgdTerrain = k))) := by
  unfold intTestBit
  rw [bits32_testTerrain a m hf hb, Nat.testBit_or]
  by_cases c1 : intAnd (a.terrainMask : Int) m ≠ 0 <;>
  by_cases c2 : intAnd (intNot (a.terrainMask : Int)) m ≠ 0
  · rw [if_pos c1, if_pos c2, Nat.testBit_two_pow, Nat.testBit_two_pow]; simp [c1, c2]
  · rw [if_pos c1, if_neg c2, Nat.testBit_two_pow]; simp [c1, c2]
  · rw [if_neg c1, if_pos c2, Nat.testBit_two_pow]; simp [c1, c2]
  · rw [if_neg c1, if_neg c2]; simp [c1, c2]

/-- C4: for every tile whose `fgdTerrain` and `bgdTerrain` are below 32 and
every 16-bit mask `m`, `testTerrain m` sets no bit other than bit
`fgdTerrain` and bit `bgdTerrain`: and-ing the result with the complement of
`combinedTerrainMask()` gives 0, and every bit set in the result is one of
the two. -/
theorem testTerrain_subset_combinedTerrainMask (ti : TileInfo) (m : Int)
    (hf : ti.attrs.fgdTerrain < 32) (hb : ti.attrs.bgdTerrain < 32) (_hm : isInt16 m) :
    intAnd (ti.attrs.testTerrain m) (intNot ti.combinedTerrainMask) = 0 ∧
    ∀ k, intTestBit (ti.attrs.testTerrain m) k = true →
      k = ti.attrs.fgdTerrain ∨ k = ti.attrs.bgdTerrain := by
  have bits : ∀ k, intTestBit (ti.attrs.testTerrain m) k = true →
      k = ti.attrs.fgdTerrain ∨ k = ti.attrs.bgdTerrain := by
    intro k hk
    rw [intTestBit_testTerrain _ _ _ hf hb] at hk
    simp only [Bool.or_eq_true, Bool.and_eq_true, decide_eq_true_eq] at hk
    rcases hk with ⟨_, h⟩ | ⟨_, h⟩
    · exact Or.inl h.symm
    · exact Or.inr h.symm
  refine ⟨?_, bits⟩
  rw [intAnd_eq_zero_iff, bits32_intNot, bits32_combinedTerrainMask ti hf hb]
  apply Nat.eq_of_testBit_eq
  intro i
  have hlt : 2 ^ ti.attrs.fgdTerrain ||| 2 ^ ti.attrs.bgdTerrain < 4294967296 :=
    Nat.or_lt_two_pow (n := 32) (Nat.pow_lt_pow_right (by decide) hf)
      (Nat.pow_lt_pow_right (by decide) hb)
  rw [Nat.testBit_and, testBit_compl32 hlt, Nat.zero_testBit, Nat.testBit_or,
    Nat.testBit_two_pow, Nat.testBit_two_pow]
  cases hbit : (bits32 (ti.attrs.testTerrain m)).testBit i
  · rfl
  · rcases bits i hbit with h | h <;> simp [h]

theorem testTerrain_subset_combinedTerrainMask_witness :
    (7 : Nat) < 32 ∧ (1 : Nat) < 32 ∧ isInt16 (-32768) ∧
    (intAnd ((TileInfo.mk 0 ⟨0, 0, 0x0F0F, 7, 1, [], 0, 0, [], 0, 0, 0⟩).attrs.testTerrain (-32768))
        (intNot (TileInfo.mk 0 ⟨0, 0, 0x0F0F, 7, 1, [], 0, 0, [], 0, 0, 0⟩).combinedTerrainMask) = 0 ∧
     ∀ k, intTestBit
        ((TileInfo.mk 0 ⟨0, 0, 0x0F0F, 7, 1, [], 0, 0, [], 0, 0, 0⟩).attrs.testTerrain (-32768)) k = true →
      k = (TileInfo.mk 0 ⟨0, 0, 0x0F0F, 7, 1, [], 0, 0, [], 0, 0, 0⟩).attrs.fgdTerrain ∨
      k = (TileInfo.mk 0 ⟨0, 0, 0x0F0F, 7, 1, [], 0, 0, [], 0, 0, 0⟩).attrs.bgdTerrain) :=
  ⟨by decide, by decide, by decide,
    testTerrain_subset_combinedTerrainMask
      (TileInfo.mk 0 ⟨0, 0, 0x0F0F, 7, 1, [], 0, 0, [], 0, 0, 0⟩) (-32768)
      (by decide) (by decide) (by decide)⟩

/-- C5: for every tile with `fgdTerrain ≠ bgdTerrain` (both below 32, the
terrain mask a `uint16`) and every `int16` mask `m`, bit `fgdTerrain` is set
in `testTerrain m` if and only if `m` intersects `terrainMask`: one of the 16
selector bits is set in both. -/
theorem testTerrain_fgd_bit_iff (a : TileAttrs) (m : Int)
    (htm : a.terrainMask < 65536) (hf : a.fgdTerrain < 32) (hb : a.bgdTerrain < 32)
    (hne : a.fgdTerrain ≠ a.bgdTerrain) (_hm : isInt16 m) :
    intTestBit (a.testTerrain m) a.fgdTerrain = true ↔
      ∃ i, i < 16 ∧ a.terrainMask.testBit i = true ∧ (bits16 m).testBit i = true := by
  rw [intTestBit_testTerrain _ _ _ hf hb, ← fgd_test_iff _ _ htm]
  have : decide (a.bgdTerrain = a.fgdTerrain) = false := by
    simp only [decide_eq_false_iff_not]; exact fun h => hne h.symm
  simp [this]

theorem testTerrain_fgd_bit_iff_witness :
    (0x0F0F : Nat) < 65536 ∧ (7 : Nat) < 32 ∧ (1 : Nat) < 32 ∧ (7 : Nat) ≠ 1 ∧ isInt16 (-32768) ∧
    (intTestBit ((TileAttrs.mk 0 0 0x0F0F 7 1 [] 0 0 [] 0 0 0).testTerrain (-32768))
        (TileAttrs.mk 0 0 0x0F0F 7 1 [] 0 0 [] 0 0 0).fgdTerrain = true ↔
      ∃ i, i < 16 ∧ (TileAttrs.mk 0 0 0x0F0F 7 1 [] 0 0 [] 0 0 0).terrainMask.testBit i = true ∧
        (bits16 (-32768)).testBit i = true) :=
  ⟨by decide, by decide, by decide, by decide, by decide,
    testTerrain_fgd_bit_iff (TileAttrs.mk 0 0 0x0F0F 7 1 [] 0 0 [] 0 0 0) (-32768)
      (by decide) (by decide) (by decide) (by decide) (by decide)⟩

/-- C6 (the code at the failing input): on a tile whose 16 selector bits are
all set (`terrainMask = 0xFFFF`, foreground terrain 0, background terrain 7)
the mask `-1`, whose 16 bits are all set in `terrainMask` as well, makes
`testTerrain` return 129, that is `(1 << 0) | (1 << 7)`: bit `bgdTerrain` is
set although no selector bit is set in the mask and clear in `terrainMask`,
and the result is not `1 << fgdTerrain`. -/
theorem testTerrain_negative_mask_sets_bgd :
    (TileAttrs.mk 0 0 0xFFFF 0 7 [] 0 0 [] 0 0 0).testTerrain (-1) = 129 ∧
    intTestBit ((TileAttrs.mk 0 0 0xFFFF 0 7 [] 0 0 [] 0 0 0).testTerrain (-1)) 7 = true ∧
    (¬ ∃ i, i < 16 ∧ (bits16 (-1)).testBit i = true ∧
      (TileAttrs.mk 0 0 0xFFFF 0 7 [] 0 0 [] 0 0 0).terrainMask.testBit i = false) ∧
    (∀ i, i < 16 → (bits16 (-1)).testBit i = true →
      (TileAttrs.mk 0 0 0xFFFF 0 7 [] 0 0 [] 0 0 0).terrainMask.testBit i = true) ∧
    (TileAttrs.mk 0 0 0xFFFF 0 7 [] 0 0 [] 0 0 0).testTerrain (-1) ≠ intShl 1 0 := by
  decide

/-- C7 (the code at the failing input): on a tile whose only foreground
subtile is `(3, 3)` (`terrainMask = 0x8000`, foreground terrain 0, background
terrain 7), `calcSubTileMask 3 3` is `-32768` and `testTerrain` of it returns
129, both terrain bits, where bit `4 * 3 + 3 = 15` of `terrainMask` is set
and `1 << fgdTerrain` is 1. -/
theorem testTerrain_calcSubTileMask_3_3 :
    calcSubTileMask 3 3 = -32768 ∧
    (TileAttrs.mk 0 0 0x8000 0 7 [] 0 0 [] 0 0 0).terrainMask.testBit (4 * 3 + 3) = true ∧
    (TileAttrs.mk 0 0 0x8000 0 7 [] 0 0 [] 0 0 0).testTerrain (calcSubTileMask 3 3) = 129 ∧
    (TileAttrs.mk 0 0 0x8000 0 7 [] 0 0 [] 0 0 0).testTerrain (calcSubTileMask 3 3) ≠
      intShl 1 (TileAttrs.mk 0 0 0x8000 0 7 [] 0 0 [] 0 0 0).fgdTerrain := by
  decide

/-! ## Lock and exclusion flags of an active item instance -/

namespace ActiveItem

theorem scriptFlags_setLocked (ai : ActiveItem) (b : Bool) (h : ai.inst.scriptFlags < 65536) :
    (ai.setLocked b).inst.scriptFlags =
      if b then ai.inst.scriptFlags ||| 2 ^ 8
      else ai.inst.scriptFlags &&& (4294967295 - 2 ^ 8) := by
  cases b
  · exact flag_clear ai.inst.scriptFlags 8 h (by decide)
  · exact flag_set ai.inst.scriptFlags 8 h (by decide)

theorem scriptFlags_setExclusive (ai : ActiveItem) (b : Bool)
    (h : ai.inst.scriptFlags < 65536) :
    (ai.setExclusive b).inst.scriptFlags =
      if b then ai.inst.scriptFlags ||| 2 ^ 10
      else ai.inst.scriptFlags &&& (4294967295 - 2 ^ 10) := by
  cases b
  · exact flag_clear ai.inst.scriptFlags 10 h (by decide)
  · exact flag_set ai.inst.scriptFlags 10 h (by decide)

/-- Bit `i` of the flag word after `setLocked b`: bit 8 becomes `b`, every
other bit keeps its value. -/
theorem testBit_setLocked (ai : ActiveItem) (b : Bool) (i : Nat)
    (h : ai.inst.scriptFlags < 65536) :
    (ai.setLocked b).inst.scriptFlags.testBit i =
      if i = 8 then b else ai.inst.scriptFlags.testBit i := by
  rw [scriptFlags_setLocked ai b h]
  cases b
  · rw [if_neg (by decide), flag_clear_testBit _ 8 i h (by decide)]
    by_cases hi : i = 8
    · simp [hi]
    · have : ¬ 8 = i := fun e => hi e.symm
      simp [hi, this]
  · rw [if_pos rfl, flag_set_testBit]
    by_cases hi : i = 8
    · simp [hi]
    · have : ¬ 8 = i := fun e => hi e.symm
      simp [hi, this]

/-- Bit `i` of the flag word after `setExclusive b`: bit 10 becomes `b`,
every other bit keeps its value. -/
theorem testBit_setExclusive (ai : ActiveItem) (b : Bool) (i : Nat)
    (h : ai.inst.scriptFlags < 65536) :
    (ai.setExclusive b).inst.scriptFlags.testBit i =
      if i = 10 then b else ai.inst.scriptFlags.testBit i := by
  rw [scriptFlags_setExclusive ai b h]
  cases b
  · rw [if_neg (by decide), flag_clear_testBit _ 10 i h (by decide)]
    by_cases hi : i = 10
    · simp [hi]
    · have : ¬ 10 = i := fun e => hi e.symm
      simp [hi, this]
  · rw [if_pos rfl, flag_set_testBit]
    by_cases hi : i = 10
    · simp [hi]
    · have : ¬ 10 = i := fun e => hi e.symm
      simp [hi, this]

theorem scriptFlags_setLocked_lt (ai : ActiveItem) (b : Bool) :
    (ai.setLocked b).inst.scriptFlags < 65536 := by
  cases b
  · show castUint16 _ < 65536
    unfold castUint16; omega
  · show castUint16 _ < 65536
    unfold castUint16; omega

theorem scriptFlags_setExclusive_lt (ai : ActiveItem) (b : Bool) :
    (ai.setExclusive b).inst.scriptFlags < 65536 := by
  cases b
  · show castUint16 _ < 65536
    unfold castUint16; omega
  · show castUint16 _ < 65536
    unfold castUint16; omega

theorem isLocked_eq_testBit (ai : ActiveItem) (h : ai.inst.scriptFlags < 65536) :
    ai.isLocked = ai.inst.scriptFlags.testBit 8 :=
  flag_test ai.inst.scriptFlags 8 h (by decide)

theorem isExclusive_eq_testBit (ai : ActiveItem) (h : ai.inst.scriptFlags < 65536) :
    ai.isExclusive = ai.inst.scriptFlags.testBit 10 :=
  flag_test ai.inst.scriptFlags 10 h (by decide)

theorem lockType_eq (ai : ActiveItem) : ai.lockType = ai.inst.scriptFlags % 2 ^ 8 := by
  unfold lockType castUint8; omega

theorem builtInBehavior_eq (ai : ActiveItem) :
    ai.builtInBehavior = (ai.inst.scriptFlags >>> 13) % 2 ^ 8 := by
  unfold builtInBehavior castUint8 intShr
  rw [Nat.shiftRight_eq_div_pow]
  norm_num
  omega

/-- Two flag words that agree on every bit but bit `k`, with `8 ≤ k < 13`,
have the same lock type and the same built-in behavior. -/
theorem lockType_builtInBehavior_congr (ai ai' : ActiveItem) (k : Nat) (hk : 8 ≤ k ∧ k < 13)
    (hbits : ∀ i, i ≠ k → ai'.inst.scriptFlags.testBit i = ai.inst.scriptFlags.testBit i) :
    ai'.lockType = ai.lockType ∧ ai'.builtInBehavior = ai.builtInBehavior := by
  constructor
  · rw [lockType_eq, lockType_eq]
    apply Nat.eq_of_testBit_eq
    intro i
    rw [Nat.testBit_mod_two_pow, Nat.testBit_mod_two_pow]
    by_cases hi : i < 8
    · rw [hbits i (by omega)]
    · simp [hi]
  · rw [builtInBehavior_eq, builtInBehavior_eq]
    apply Nat.eq_of_testBit_eq
    intro i
    rw [Nat.testBit_mod_two_pow, Nat.testBit_mod_two_pow, Nat.testBit_shiftRight,
      Nat.testBit_shiftRight, hbits (13 + i) (by omega)]

end ActiveItem

/-- C8: for every active item instance (any prior 16-bit `scriptFlags`) and
every boolean `b`, after `setLocked b` the call `isLocked` returns `b`; in
particular it returns `true` after `setLocked true`. -/
theorem isLocked_setLocked (ai : ActiveItem) (b : Bool) (h : ai.inst.scriptFlags < 65536) :
    (ai.setLocked b).isLocked = b ∧ (ai.setLocked true).isLocked = true := by
  have key : ∀ c : Bool, (ai.setLocked c).isLocked = c := by
    intro c
    rw [ActiveItem.isLocked_eq_testBit _ (ActiveItem.scriptFlags_setLocked_lt ai c),
      ActiveItem.testBit_setLocked ai c 8 h, if_pos rfl]
  exact ⟨key b, key true⟩

theorem isLocked_setLocked_witness :
    (0xFFFF : Nat) < 65536 ∧
    (((ActiveItem.mk 0 0 0 1 ⟨0, 0, 0, 0, 0, 0, 0, 0, 0⟩
        ⟨3, 10, 20, 0, 0, 0xFFFF, 0, 0, 0, 0⟩).setLocked false).isLocked = false ∧
     ((ActiveItem.mk 0 0 0 1 ⟨0, 0, 0, 0, 0, 0, 0, 0, 0⟩
        ⟨3, 10, 20, 0, 0, 0xFFFF, 0, 0, 0, 0⟩).setLocked true).isLocked = true) :=
  ⟨by decide, isLocked_setLocked (ActiveItem.mk 0 0 0 1 ⟨0, 0, 0, 0, 0, 0, 0, 0, 0⟩
        ⟨3, 10, 20, 0, 0, 0xFFFF, 0, 0, 0, 0⟩) false (by decide)⟩

/-- C9: for every active item instance (any prior 16-bit `scriptFlags`) and
every boolean `b`, after `setExclusive b` the call `isExclusive` returns `b`. -/
theorem isExclusive_setExclusive (ai : ActiveItem) (b : Bool)
    (h : ai.inst.scriptFlags < 65536) :
    (ai.setExclusive b).isExclusive = b := by
  rw [ActiveItem.isExclusive_eq_testBit _ (ActiveItem.scriptFlags_setExclusive_lt ai b),
    ActiveItem.testBit_setExclusive ai b 10 h, if_pos rfl]

theorem isExclusive_setExclusive_witness :
    (0xFFFF : Nat) < 65536 ∧
    ((ActiveItem.mk 0 0 0 1 ⟨0, 0, 0, 0, 0, 0, 0, 0, 0⟩
        ⟨3, 10, 20, 0, 0, 0xFFFF, 0, 0, 0, 0⟩).setExclusive false).isExclusive = false :=
  ⟨by decide, isExclusive_setExclusive (ActiveItem.mk 0 0 0 1 ⟨0, 0, 0, 0, 0, 0, 0, 0, 0⟩
        ⟨3, 10, 20, 0, 0, 0xFFFF, 0, 0, 0, 0⟩) false (by decide)⟩

/-- C10: the lock and exclusive flags are independent bits of the flag word.
For every 16-bit `scriptFlags` and boolean `b`, `setLocked b` changes at most
bit 8 and `setExclusive b` at most bit 10 (and nothing outside
`scriptFlags`), so `setLocked` leaves `isExclusive`, `lockType` and
`builtInBehavior` unchanged and `setExclusive` leaves `isLocked`, `lockType`
and `builtInBehavior` unchanged. -/
theorem setLocked_setExclusive_frame (ai : ActiveItem) (b : Bool)
    (h : ai.inst.scriptFlags < 65536) :
    (∀ i, i ≠ 8 → (ai.setLocked b).inst.scriptFlags.testBit i = ai.inst.scriptFlags.testBit i) ∧
    (∀ i, i ≠ 10 →
      (ai.setExclusive b).inst.scriptFlags.testBit i = ai.inst.scriptFlags.testBit i) ∧
    ((ai.setLocked b).isExclusive = ai.isExclusive ∧
     (ai.setLocked b).lockType = ai.lockType ∧
     (ai.setLocked b).builtInBehavior = ai.builtInBehavior) ∧
    ((ai.setExclusive b).isLocked = ai.isLocked ∧
     (ai.setExclusive b).lockType = ai.lockType ∧
     (ai.setExclusive b).builtInBehavior = ai.builtInBehavior) ∧
    ai.setLocked b = { ai with inst := { ai.inst with
      scriptFlags := (ai.setLocked b).inst.scriptFlags } } ∧
    ai.setExclusive b = { ai with inst := { ai.inst with
      scriptFlags := (ai.setExclusive b).inst.scriptFlags } } := by
  have hL : ∀ i, i ≠ 8 →
      (ai.setLocked b).inst.scriptFlags.testBit i = ai.inst.scriptFlags.testBit i := by
    intro i hi
    rw [ActiveItem.testBit_setLocked ai b i h, if_neg hi]
  have hE : ∀ i, i ≠ 10 →
      (ai.setExclusive b).inst.scriptFlags.testBit i = ai.inst.scriptFlags.testBit i := by
    intro i hi
    rw [ActiveItem.testBit_setExclusive ai b i h, if_neg hi]
  have cL := ActiveItem.lockType_builtInBehavior_congr ai (ai.setLocked b) 8 (by decide) hL
  have cE := ActiveItem.lockType_builtInBehavior_congr ai (ai.setExclusive b) 10 (by decide) hE
  refine ⟨hL, hE, ⟨?_, cL.1, cL.2⟩, ⟨?_, cE.1, cE.2⟩, ?_, ?_⟩
  · rw [ActiveItem.isExclusive_eq_testBit _ (ActiveItem.scriptFlags_setLocked_lt ai b),
      ActiveItem.isExclusive_eq_testBit _ h, hL 10 (by decide)]
  · rw [ActiveItem.isLocked_eq_testBit _ (ActiveItem.scriptFlags_setExclusive_lt ai b),
      ActiveItem.isLocked_eq_testBit _ h, hE 8 (by decide)]
  · cases b <;> rfl
  · cases b <;> rfl

theorem setLocked_setExclusive_frame_witness :
    (0x6A5C : Nat) < 65536 ∧
    ((∀ i, i ≠ 8 → ((ActiveItem.mk 0 0 0 1 ⟨0, 0, 0, 0, 0, 0, 0, 0, 0⟩
        ⟨3, 10, 20, 0, 0, 0x6A5C, 0, 0, 0, 0⟩).setLocked true).inst.scriptFlags.testBit i =
        (ActiveItem.mk 0 0 0 1 ⟨0, 0, 0, 0, 0, 0, 0, 0, 0⟩
        ⟨3, 10, 20, 0, 0, 0x6A5C, 0, 0, 0, 0⟩).inst.scriptFlags.testBit i) ∧
    (∀ i, i ≠ 10 → ((ActiveItem.mk 0 0 0 1 ⟨0, 0, 0, 0, 0, 0, 0, 0, 0⟩
        ⟨3, 10, 20, 0, 0, 0x6A5C, 0, 0, 0, 0⟩).setExclusive true).inst.scriptFlags.testBit i =
        (ActiveItem.mk 0 0 0 1 ⟨0, 0, 0, 0, 0, 0, 0, 0, 0⟩
        ⟨3, 10, 20, 0, 0, 0x6A5C, 0, 0, 0, 0⟩).inst.scriptFlags.testBit i) ∧
    (((ActiveItem.mk 0 0 0 1 ⟨0, 0, 0, 0, 0, 0, 0, 0, 0⟩
        ⟨3, 10, 20, 0, 0, 0x6A5C, 0, 0, 0, 0⟩).setLocked true).isExclusive = (ActiveItem.mk 0 0 0 1 ⟨0, 0, 0, 0, 0, 0, 0, 0, 0⟩
        ⟨3, 10, 20, 0, 0, 0x6A5C, 0, 0, 0, 0⟩).isExclusive ∧
     ((ActiveItem.mk 0 0 0 1 ⟨0, 0, 0, 0, 0, 0, 0, 0, 0⟩
        ⟨3, 10, 20, 0, 0, 0x6A5C, 0, 0, 0, 0⟩).setLocked true).lockType = (ActiveItem.mk 0 0 0 1 ⟨0, 0, 0, 0, 0, 0, 0, 0, 0⟩
        ⟨3, 10, 20, 0, 0, 0x6A5C, 0, 0, 0, 0⟩).lockType ∧
     ((ActiveItem.mk 0 0 0 1 ⟨0, 0, 0, 0, 0, 0, 0, 0, 0⟩
        ⟨3, 10, 20, 0, 0, 0x6A5C, 0, 0, 0, 0⟩).setLocked true).builtInBehavior = (ActiveItem.mk 0 0 0 1 ⟨0, 0, 0, 0, 0, 0, 0, 0, 0⟩
        ⟨3, 10, 20, 0, 0, 0x6A5C, 0, 0, 0, 0⟩).builtInBehavior) ∧
    (((ActiveItem.mk 0 0 0 1 ⟨0, 0, 0, 0, 0, 0, 0, 0, 0⟩
        ⟨3, 10, 20, 0, 0, 0x6A5C, 0, 0, 0, 0⟩).setExclusive true).isLocked = (ActiveItem.mk 0 0 0 1 ⟨0, 0, 0, 0, 0, 0, 0, 0, 0⟩
        ⟨3, 10, 20, 0, 0, 0x6A5C, 0, 0, 0, 0⟩).isLocked ∧
     ((ActiveItem.mk 0 0 0 1 ⟨0, 0, 0, 0, 0, 0, 0, 0, 0⟩
        ⟨3, 10, 20, 0, 0, 0x6A5C, 0, 0, 0, 0⟩).setExclusive true).lockType = (ActiveItem.mk 0 0 0 1 ⟨0, 0, 0, 0, 0, 0, 0, 0, 0⟩
        ⟨3, 10, 20, 0, 0, 0x6A5C, 0, 0, 0, 0⟩).lockType ∧
     ((ActiveItem.mk 0 0 0 1 ⟨0, 0, 0, 0, 0, 0, 0, 0, 0⟩
        ⟨3, 10, 20, 0, 0, 0x6A5C, 0, 0, 0, 0⟩).setExclusive true).builtInBehavior = (ActiveItem.mk 0 0 0 1 ⟨0, 0, 0, 0, 0, 0, 0, 0, 0⟩
        ⟨3, 10, 20, 0, 0, 0x6A5C, 0, 0, 0, 0⟩).builtInBehavior) ∧
    (ActiveItem.mk 0 0 0 1 ⟨0, 0, 0, 0, 0, 0, 0, 0, 0⟩
        ⟨3, 10, 20, 0, 0, 0x6A5C, 0, 0, 0, 0⟩).setLocked true = { (ActiveItem.mk 0 0 0 1 ⟨0, 0, 0, 0, 0, 0, 0, 0, 0⟩
        ⟨3, 10, 20, 0, 0, 0x6A5C, 0, 0, 0, 0⟩) with inst := { (ActiveItem.mk 0 0 0 1 ⟨0, 0, 0, 0, 0, 0, 0, 0, 0⟩
        ⟨3, 10, 20, 0, 0, 0x6A5C, 0, 0, 0, 0⟩).inst with
      scriptFlags := ((ActiveItem.mk 0 0 0 1 ⟨0, 0, 0, 0, 0, 0, 0, 0, 0⟩
        ⟨3, 10, 20, 0, 0, 0x6A5C, 0, 0, 0, 0⟩).setLocked true).inst.scriptFlags } } ∧
    (ActiveItem.mk 0 0 0 1 ⟨0, 0, 0, 0, 0, 0, 0, 0, 0⟩
        ⟨3, 10, 20, 0, 0, 0x6A5C, 0, 0, 0, 0⟩).setExclusive true = { (ActiveItem.mk 0 0 0 1 ⟨0, 0, 0, 0, 0, 0, 0, 0, 0⟩
        ⟨3, 10, 20, 0, 0, 0x6A5C, 0, 0, 0, 0⟩) with inst := { (ActiveItem.mk 0 0 0 1 ⟨0, 0, 0, 0, 0, 0, 0, 0, 0⟩
        ⟨3, 10, 20, 0, 0, 0x6A5C, 0, 0, 0, 0⟩).inst with
      scriptFlags := ((ActiveItem.mk 0 0 0 1 ⟨0, 0, 0, 0, 0, 0, 0, 0, 0⟩
        ⟨3, 10, 20, 0, 0, 0x6A5C, 0, 0, 0, 0⟩).setExclusive true).inst.scriptFlags } }) :=
  ⟨by decide, setLocked_setExclusive_frame (ActiveItem.mk 0 0 0 1 ⟨0, 0, 0, 0, 0, 0, 0, 0, 0⟩
        ⟨3, 10, 20, 0, 0, 0x6A5C, 0, 0, 0, 0⟩) true (by decide)⟩

/-! ## Range test of an active item group -/

theorem ofBits32_bits32 {x : Int} (h : -2147483648 ≤ x ∧ x < 2147483648) :
    ofBits32 (bits32 x) = x := by
  unfold ofBits32 bits32
  split <;> omega

theorem intAdd_eq {a b : Int} (h : -2147483648 ≤ a + b ∧ a + b < 2147483648) :
    intAdd a b = a + b :=
  ofBits32_bits32 h

theorem intSub_eq {a b : Int} (h : -2147483648 ≤ a - b ∧ a - b < 2147483648) :
    intSub a b = a - b :=
  ofBits32_bits32 h

/-- The range test of a group, with the `int` arithmetic carried out: for
`int16` coordinates and range and `uint8` sizes nothing wraps. -/
theorem ActiveItem.inRange_eq_true_iff (g ins : ActiveItem) (loc : TilePoint) (range : Int)
    (hu : isInt16 ins.inst.u) (hv : isInt16 ins.inst.v) (hr : isInt16 range)
    (hsu : g.group.uSize < 256) (hsv : g.group.vSize < 256) :
    g.inRange ins loc range = true ↔
      (ins.inst.u - range ≤ loc.u ∧ loc.u < ins.inst.u + (g.group.uSize : Int) + range) ∧
      (ins.inst.v - range ≤ loc.v ∧ loc.v < ins.inst.v + (g.group.vSize : Int) + range) := by
  unfold isInt16 at hu hv hr
  unfold ActiveItem.inRange
  rw [intSub_eq (a := ins.inst.u) (by omega), intSub_eq (a := ins.inst.v) (by omega),
    intAdd_eq (a := ins.inst.u) (b := (g.group.uSize : Int)) (by omega),
    intAdd_eq (a := ins.inst.v) (b := (g.group.vSize : Int)) (by omega),
    intAdd_eq (by omega), intAdd_eq (by omega)]
  simp only [Bool.and_eq_true, decide_eq_true_eq, ge_iff_le]
  tauto

/-- C11: for every group with footprint `(uSize, vSize)`, instance at
`(ins.u, ins.v)`, query point `loc` and `int16` range, the group method
`inRange ins loc range` is true if and only if
`ins.u - range ≤ loc.u < ins.u + uSize + range` and
`ins.v - range ≤ loc.v < ins.v + vSize + range` in exact integer arithmetic
(nothing wraps), and the result does not depend on `loc.z` nor on `ins.h`. -/
theorem inRange_iff_bounding_box (g ins : ActiveItem) (loc : TilePoint) (range : Int)
    (hu : isInt16 ins.inst.u) (hv : isInt16 ins.inst.v) (_hl : loc.isInt16)
    (hr : isInt16 range) (hsu : g.group.uSize < 256) (hsv : g.group.vSize < 256) :
    (g.inRange ins loc range = true ↔
      (ins.inst.u - range ≤ loc.u ∧ loc.u < ins.inst.u + (g.group.uSize : Int) + range) ∧
      (ins.inst.v - range ≤ loc.v ∧ loc.v < ins.inst.v + (g.group.vSize : Int) + range)) ∧
    (∀ z h : Int,
      g.inRange { ins with inst := { ins.inst with h := h } } { loc with z := z } range =
        g.inRange ins loc range) := by
  exact ⟨ActiveItem.inRange_eq_true_iff g ins loc range hu hv hr hsu hsv, fun _ _ => rfl⟩

theorem inRange_iff_bounding_box_witness :
    isInt16 (10 : Int) ∧ isInt16 (20 : Int) ∧ (TilePoint.mk 13 21 7).isInt16 ∧
    isInt16 (1 : Int) ∧ (3 : Nat) < 256 ∧ (2 : Nat) < 256 ∧
    (((ActiveItem.mk 0 0 0 0 ⟨0, 2, 3, 2, 6, 0, 0, 0, 0⟩ ⟨0, 0, 0, 0, 0, 0, 0, 0, 0, 0⟩).inRange
        (ActiveItem.mk 0 0 0 1 ⟨0, 0, 0, 0, 0, 0, 0, 0, 0⟩ ⟨0, 10, 20, 0, 0, 0, 0, 0, 0, 0⟩)
        (TilePoint.mk 13 21 7) 1 = true ↔
      ((10 : Int) - 1 ≤ 13 ∧ (13 : Int) < 10 + ((3 : Nat) : Int) + 1) ∧
      ((20 : Int) - 1 ≤ 21 ∧ (21 : Int) < 20 + ((2 : Nat) : Int) + 1)) ∧
    (∀ z h : Int,
      (ActiveItem.mk 0 0 0 0 ⟨0, 2, 3, 2, 6, 0, 0, 0, 0⟩ ⟨0, 0, 0, 0, 0, 0, 0, 0, 0, 0⟩).inRange
        (ActiveItem.mk 0 0 0 1 ⟨0, 0, 0, 0, 0, 0, 0, 0, 0⟩ ⟨0, 10, 20, h, 0, 0, 0, 0, 0, 0⟩)
        (TilePoint.mk 13 21 z) 1 =
      (ActiveItem.mk 0 0 0 0 ⟨0, 2, 3, 2, 6, 0, 0, 0, 0⟩ ⟨0, 0, 0, 0, 0, 0, 0, 0, 0, 0⟩).inRange
        (ActiveItem.mk 0 0 0 1 ⟨0, 0, 0, 0, 0, 0, 0, 0, 0⟩ ⟨0, 10, 20, 0, 0, 0, 0, 0, 0, 0⟩)
        (TilePoint.mk 13 21 7) 1)) :=
  ⟨by decide, by decide, by decide, by decide, by decide, by decide,
    inRange_iff_bounding_box
      (ActiveItem.mk 0 0 0 0 ⟨0, 2, 3, 2, 6, 0, 0, 0, 0⟩ ⟨0, 0, 0, 0, 0, 0, 0, 0, 0, 0⟩)
      (ActiveItem.mk 0 0 0 1 ⟨0, 0, 0, 0, 0, 0, 0, 0, 0⟩ ⟨0, 10, 20, 0, 0, 0, 0, 0, 0, 0⟩)
      (TilePoint.mk 13 21 7) 1
      (by decide) (by decide) (by decide) (by decide) (by decide) (by decide)⟩

/-- C20: `inRange` is monotone in the range: for every group, instance,
point and `int16` ranges `r ≤ r'`, if `inRange ins loc r` is true then so is
`inRange ins loc r'`; consequently every point of the bare footprint
`[ins.u, ins.u + uSize) × [ins.v, ins.v + vSize)`, which is exactly the set
of points in range 0, is in range for every `int16` range `q ≥ 0`. -/
theorem inRange_mono (g ins : ActiveItem) (loc : TilePoint) (r r' : Int)
    (hu : isInt16 ins.inst.u) (hv : isInt16 ins.inst.v)
    (hr : isInt16 r) (hr' : isInt16 r') (hsu : g.group.uSize < 256) (hsv : g.group.vSize < 256)
    (hle : r ≤ r') :
    (g.inRange ins loc r = true → g.inRange ins loc r' = true) ∧
    (g.inRange ins loc 0 = true ↔
      (ins.inst.u ≤ loc.u ∧ loc.u < ins.inst.u + (g.group.uSize : Int)) ∧
      (ins.inst.v ≤ loc.v ∧ loc.v < ins.inst.v + (g.group.vSize : Int))) ∧
    ((ins.inst.u ≤ loc.u ∧ loc.u < ins.inst.u + (g.group.uSize : Int)) ∧
      (ins.inst.v ≤ loc.v ∧ loc.v < ins.inst.v + (g.group.vSize : Int)) →
      ∀ q : Int, isInt16 q → 0 ≤ q → g.inRange ins loc q = true) := by
  have h0 : isInt16 0 := by decide
  refine ⟨?_, ?_, ?_⟩
  · rw [ActiveItem.inRange_eq_true_iff g ins loc r hu hv hr hsu hsv,
      ActiveItem.inRange_eq_true_iff g ins loc r' hu hv hr' hsu hsv]
    rintro ⟨⟨h1, h2⟩, h3, h4⟩
    exact ⟨⟨by omega, by omega⟩, by omega, by omega⟩
  · rw [ActiveItem.inRange_eq_true_iff g ins loc 0 hu hv h0 hsu hsv]
    constructor
    · rintro ⟨⟨h1, h2⟩, h3, h4⟩
      exact ⟨⟨by omega, by omega⟩, by omega, by omega⟩
    · rintro ⟨⟨h1, h2⟩, h3, h4⟩
      exact ⟨⟨by omega, by omega⟩, by omega, by omega⟩
  · rintro ⟨⟨h1, h2⟩, h3, h4⟩ q hq hpos
    rw [ActiveItem.inRange_eq_true_iff g ins loc q hu hv hq hsu hsv]
    exact ⟨⟨by omega, by omega⟩, by omega, by omega⟩

theorem inRange_mono_witness :
    (isInt16 (10 : Int) ∧ isInt16 (20 : Int) ∧ isInt16 (1 : Int) ∧ isInt16 (4 : Int) ∧
      (3 : Nat) < 256 ∧ (2 : Nat) < 256 ∧ (1 : Int) ≤ 4) ∧
    (((ActiveItem.mk 0 0 0 0 ⟨0, 2, 3, 2, 6, 0, 0, 0, 0⟩ ⟨0, 0, 0, 0, 0, 0, 0, 0, 0, 0⟩).inRange
        (ActiveItem.mk 0 0 0 1 ⟨0, 0, 0, 0, 0, 0, 0, 0, 0⟩ ⟨0, 10, 20, 0, 0, 0, 0, 0, 0, 0⟩)
        (TilePoint.mk 12 21 7) 1 = true →
      (ActiveItem.mk 0 0 0 0 ⟨0, 2, 3, 2, 6, 0, 0, 0, 0⟩ ⟨0, 0, 0, 0, 0, 0, 0, 0, 0, 0⟩).inRange
        (ActiveItem.mk 0 0 0 1 ⟨0, 0, 0, 0, 0, 0, 0, 0, 0⟩ ⟨0, 10, 20, 0, 0, 0, 0, 0, 0, 0⟩)
        (TilePoint.mk 12 21 7) 4 = true) ∧
     ((ActiveItem.mk 0 0 0 0 ⟨0, 2, 3, 2, 6, 0, 0, 0, 0⟩ ⟨0, 0, 0, 0, 0, 0, 0, 0, 0, 0⟩).inRange
        (ActiveItem.mk 0 0 0 1 ⟨0, 0, 0, 0, 0, 0, 0, 0, 0⟩ ⟨0, 10, 20, 0, 0, 0, 0, 0, 0, 0⟩)
        (TilePoint.mk 12 21 7) 0 = true ↔
      ((10 : Int) ≤ 12 ∧ (12 : Int) < 10 + ((3 : Nat) : Int)) ∧
      ((20 : Int) ≤ 21 ∧ (21 : Int) < 20 + ((2 : Nat) : Int))) ∧
     (((10 : Int) ≤ 12 ∧ (12 : Int) < 10 + ((3 : Nat) : Int)) ∧
      ((20 : Int) ≤ 21 ∧ (21 : Int) < 20 + ((2 : Nat) : Int)) →
      ∀ q : Int, isInt16 q → 0 ≤ q →
        (ActiveItem.mk 0 0 0 0 ⟨0, 2, 3, 2, 6, 0, 0, 0, 0⟩ ⟨0, 0, 0, 0, 0, 0, 0, 0, 0, 0⟩).inRange
          (ActiveItem.mk 0 0 0 1 ⟨0, 0, 0, 0, 0, 0, 0, 0, 0⟩ ⟨0, 10, 20, 0, 0, 0, 0, 0, 0, 0⟩)
          (TilePoint.mk 12 21 7) q = true)) ∧
    ((ActiveItem.mk 0 0 0 0 ⟨0, 2, 3, 2, 6, 0, 0, 0, 0⟩ ⟨0, 0, 0, 0, 0, 0, 0, 0, 0, 0⟩).inRange
        (ActiveItem.mk 0 0 0 1 ⟨0, 0, 0, 0, 0, 0, 0, 0, 0⟩ ⟨0, 10, 20, 0, 0, 0, 0, 0, 0, 0⟩)
        (TilePoint.mk 12 21 7) 1 = true ∧
     (((10 : Int) ≤ 12 ∧ (12 : Int) < 10 + ((3 : Nat) : Int)) ∧
      ((20 : Int) ≤ 21 ∧ (21 : Int) < 20 + ((2 : Nat) : Int))) ∧
     (ActiveItem.mk 0 0 0 0 ⟨0, 2, 3, 2, 6, 0, 0, 0, 0⟩ ⟨0, 0, 0, 0, 0, 0, 0, 0, 0, 0⟩).inRange
        (ActiveItem.mk 0 0 0 1 ⟨0, 0, 0, 0, 0, 0, 0, 0, 0⟩ ⟨0, 10, 20, 0, 0, 0, 0, 0, 0, 0⟩)
        (TilePoint.mk 12 21 7) 0 = true ∧
     (ActiveItem.mk 0 0 0 0 ⟨0, 2, 3, 2, 6, 0, 0, 0, 0⟩ ⟨0, 0, 0, 0, 0, 0, 0, 0, 0, 0⟩).inRange
        (ActiveItem.mk 0 0 0 1 ⟨0, 0, 0, 0, 0, 0, 0, 0, 0⟩ ⟨0, 10, 20, 0, 0, 0, 0, 0, 0, 0⟩)
        (TilePoint.mk 12 21 7) 4 = true ∧
     (ActiveItem.mk 0 0 0 0 ⟨0, 2, 3, 2, 6, 0, 0, 0, 0⟩ ⟨0, 0, 0, 0, 0, 0, 0, 0, 0, 0⟩).inRange
        (ActiveItem.mk 0 0 0 1 ⟨0, 0, 0, 0, 0, 0, 0, 0, 0⟩ ⟨0, 10, 20, 0, 0, 0, 0, 0, 0, 0⟩)
        (TilePoint.mk 13 21 7) 0 = false) :=
  ⟨⟨by decide, by decide, by decide, by decide, by decide, by decide, by decide⟩,
    inRange_mono
      (ActiveItem.mk 0 0 0 0 ⟨0, 2, 3, 2, 6, 0, 0, 0, 0⟩ ⟨0, 0, 0, 0, 0, 0, 0, 0, 0, 0⟩)
      (ActiveItem.mk 0 0 0 1 ⟨0, 0, 0, 0, 0, 0, 0, 0, 0⟩ ⟨0, 10, 20, 0, 0, 0, 0, 0, 0, 0⟩)
      (TilePoint.mk 12 21 7) 1 4
      (by decide) (by decide) (by decide) (by decide) (by decide) (by decide) (by decide),
    by decide⟩

/-! ## The region of a metatile iterator -/

theorem two_pow_bounds {k : Nat} (hk : k ≤ 30) :
    (1 : Int) ≤ 2 ^ k ∧ (2 : Int) ^ k ≤ 1073741824 := by
  constructor
  · exact one_le_pow₀ (by norm_num)
  · calc (2 : Int) ^ k ≤ 2 ^ 30 := pow_le_pow_right₀ (by norm_num) hk
      _ = 1073741824 := by norm_num

/-- Shifting an `int16` right and storing it in an `int16` is the floor
division by the power of two. -/
theorem castInt16_intShr {x : Int} {k : Nat} (hx : isInt16 x) (hk : k ≤ 30) :
    castInt16 (intShr x k) = x / 2 ^ k := by
  obtain ⟨h1, h2⟩ := two_pow_bounds hk
  unfold isInt16 at hx
  unfold intShr
  generalize (2 : Int) ^ k = W at h1 h2 ⊢
  have hW : 0 < W := by omega
  have lo : -32768 ≤ x / W := (Int.le_ediv_iff_mul_le hW).2 (by omega)
  have hi : x / W < 32768 := (Int.ediv_lt_iff_lt_mul hW).2 (by omega)
  unfold castInt16; omega

/-- Adding the mask `2 ^ k - 1` to an `int16`, shifting right and storing the
result in an `int16` computes `(x + 2 ^ k - 1) / 2 ^ k`; the sum does not
overflow an `int`. -/
theorem castInt16_intShr_intAdd {x : Int} {k : Nat} (hx : isInt16 x) (hk : k ≤ 30) :
    castInt16 (intShr (intAdd x (2 ^ k - 1)) k) = (x + (2 ^ k - 1)) / 2 ^ k := by
  obtain ⟨h1, h2⟩ := two_pow_bounds hk
  unfold isInt16 at hx
  unfold intShr
  generalize (2 : Int) ^ k = W at h1 h2 ⊢
  have hW : 0 < W := by omega
  rw [intAdd_eq (by omega)]
  have lo : -32768 ≤ (x + (W - 1)) / W := (Int.le_ediv_iff_mul_le hW).2 (by omega)
  have hi : (x + (W - 1)) / W < 32768 := (Int.ediv_lt_iff_lt_mul hW).2 (by omega)
  unfold castInt16; omega

theorem floor_div_two_pow (x : Int) (k : Nat) :
    ⌊(x : ℚ) / (2 : ℚ) ^ k⌋ = x / 2 ^ k := by
  have := Rat.floor_intCast_div_natCast x (2 ^ k)
  push_cast at this
  exact this

theorem ceil_div_two_pow (x : Int) (k : Nat) :
    ⌈(x : ℚ) / (2 : ℚ) ^ k⌉ = (x + (2 ^ k - 1)) / 2 ^ k := by
  have hW : (0 : Int) < 2 ^ k := by positivity
  have hWq : (0 : ℚ) < (2 : ℚ) ^ k := by positivity
  have h1 := Int.ediv_mul_le (x + (2 ^ k - 1)) (ne_of_gt hW)
  have h2 := Int.lt_ediv_add_one_mul_self (x + (2 ^ k - 1)) hW
  rw [Int.ceil_eq_iff]
  generalize (x + (2 ^ k - 1)) / 2 ^ k = q at h1 h2 ⊢
  have e1 : (q - 1) * 2 ^ k < x := by linarith
  have e2 : x ≤ q * 2 ^ k := by linarith
  have e1q : ((q : ℚ) - 1) * (2 : ℚ) ^ k < (x : ℚ) := by exact_mod_cast e1
  have e2q : (x : ℚ) ≤ (q : ℚ) * (2 : ℚ) ^ k := by exact_mod_cast e2
  constructor
  · rw [lt_div_iff₀ hWq]; exact e1q
  · rw [div_le_iff₀ hWq]; exact e2q

/-- One axis of the conversion: the metatile index `m` lies between the
floor of the lower bound and the rounded-up upper bound exactly when the
block of `W` tiles of `m` meets the non-empty tile interval `[a, b)`. -/
theorem block_meets_interval_iff (a b m W : Int) (hW : 0 < W) (hab : a < b) :
    (a / W ≤ m ∧ m < (b + (W - 1)) / W) ↔
      ∃ t : Int, (m * W ≤ t ∧ t < m * W + W) ∧ (a ≤ t ∧ t < b) := by
  have k1 : a / W ≤ m ↔ a < m * W + W := by
    rw [← Int.lt_add_one_iff, Int.ediv_lt_iff_lt_mul hW, Int.add_mul, Int.one_mul]
  have k2 : m < (b + (W - 1)) / W ↔ m * W + W ≤ b + (W - 1) := by
    rw [← Int.add_one_le_iff, Int.le_ediv_iff_mul_le hW, Int.add_mul, Int.one_mul]
  rw [k1, k2]
  generalize m * W = P
  constructor
  · rintro ⟨h1, h2⟩
    by_cases hPa : P ≤ a
    · exact ⟨a, ⟨hPa, h1⟩, le_refl a, hab⟩
    · exact ⟨P, ⟨le_refl P, by omega⟩, by omega, by omega⟩
  · rintro ⟨t, ⟨h1, h2⟩, h3, h4⟩
    omega

/-- C12: with `W = 2 ^ platShift` and `platMask = W - 1`, for every
tile-space region with `int16` coordinates (negative ones included) the
constructor of the metatile iterator stores the floor of `reg.min.u / W` and
of `reg.min.v / W`, the ceiling of `reg.max.u / W` and of `reg.max.v / W`,
and 0 in both `z` fields. -/
theorem MetaTileIterator_region_floor_ceil (platShift : Nat) (platMask : Int)
    (mCoords : TilePoint) (map : Int) (reg : TileRegion)
    (hs : platShift ≤ 30) (hm : platMask = 2 ^ platShift - 1)
    (hmin : reg.min.isInt16) (hmax : reg.max.isInt16) :
    (MetaTileIterator.MetaTileIterator platShift platMask mCoords map reg).region.min.u =
        ⌊(reg.min.u : ℚ) / (2 : ℚ) ^ platShift⌋ ∧
    (MetaTileIterator.MetaTileIterator platShift platMask mCoords map reg).region.min.v =
        ⌊(reg.min.v : ℚ) / (2 : ℚ) ^ platShift⌋ ∧
    (MetaTileIterator.MetaTileIterator platShift platMask mCoords map reg).region.max.u =
        ⌈(reg.max.u : ℚ) / (2 : ℚ) ^ platShift⌉ ∧
    (MetaTileIterator.MetaTileIterator platShift platMask mCoords map reg).region.max.v =
        ⌈(reg.max.v : ℚ) / (2 : ℚ) ^ platShift⌉ ∧
    (MetaTileIterator.MetaTileIterator platShift platMask mCoords map reg).region.min.z = 0 ∧
    (MetaTileIterator.MetaTileIterator platShift platMask mCoords map reg).region.max.z = 0 := by
  subst hm
  rw [floor_div_two_pow, floor_div_two_pow, ceil_div_two_pow, ceil_div_two_pow]
  exact ⟨castInt16_intShr hmin.1 hs, castInt16_intShr hmin.2.1 hs,
    castInt16_intShr_intAdd hmax.1 hs, castInt16_intShr_intAdd hmax.2.1 hs, rfl, rfl⟩

theorem MetaTileIterator_region_floor_ceil_witness :
    (3 : Nat) ≤ 30 ∧ (7 : Int) = 2 ^ 3 - 1 ∧
    (TilePoint.mk (-9) 8 5).isInt16 ∧ (TilePoint.mk 17 32767 9).isInt16 ∧
    ((MetaTileIterator.MetaTileIterator 3 7 (TilePoint.mk 0 0 0) 1
        (TileRegion.mk (TilePoint.mk (-9) 8 5) (TilePoint.mk 17 32767 9))).region.min.u =
        ⌊(((TileRegion.mk (TilePoint.mk (-9) 8 5) (TilePoint.mk 17 32767 9)).min.u : Int) : ℚ) /
          (2 : ℚ) ^ 3⌋ ∧
    (MetaTileIterator.MetaTileIterator 3 7 (TilePoint.mk 0 0 0) 1
        (TileRegion.mk (TilePoint.mk (-9) 8 5) (TilePoint.mk 17 32767 9))).region.min.v =
        ⌊(((TileRegion.mk (TilePoint.mk (-9) 8 5) (TilePoint.mk 17 32767 9)).min.v : Int) : ℚ) /
          (2 : ℚ) ^ 3⌋ ∧
    (MetaTileIterator.MetaTileIterator 3 7 (TilePoint.mk 0 0 0) 1
        (TileRegion.mk (TilePoint.mk (-9) 8 5) (TilePoint.mk 17 32767 9))).region.max.u =
        ⌈(((TileRegion.mk (TilePoint.mk (-9) 8 5) (TilePoint.mk 17 32767 9)).max.u : Int) : ℚ) /
          (2 : ℚ) ^ 3⌉ ∧
    (MetaTileIterator.MetaTileIterator 3 7 (TilePoint.mk 0 0 0) 1
        (TileRegion.mk (TilePoint.mk (-9) 8 5) (TilePoint.mk 17 32767 9))).region.max.v =
        ⌈(((TileRegion.mk (TilePoint.mk (-9) 8 5) (TilePoint.mk 17 32767 9)).max.v : Int) : ℚ) /
          (2 : ℚ) ^ 3⌉ ∧
    (MetaTileIterator.MetaTileIterator 3 7 (TilePoint.mk 0 0 0) 1
        (TileRegion.mk (TilePoint.mk (-9) 8 5) (TilePoint.mk 17 32767 9))).region.min.z = 0 ∧
    (MetaTileIterator.MetaTileIterator 3 7 (TilePoint.mk 0 0 0) 1
        (TileRegion.mk (TilePoint.mk (-9) 8 5) (TilePoint.mk 17 32767 9))).region.max.z = 0) :=
  ⟨by decide, by decide, by decide, by decide,
    MetaTileIterator_region_floor_ceil 3 7 (TilePoint.mk 0 0 0) 1
      (TileRegion.mk (TilePoint.mk (-9) 8 5) (TilePoint.mk 17 32767 9))
      (by decide) (by decide) (by decide) (by decide)⟩

/-- C13: with `W = 2 ^ platShift` and `platMask = W - 1`, for every
non-empty tile region (`reg.min.u < reg.max.u`, `reg.min.v < reg.max.v`,
upper bounds exclusive) and every metatile coordinate `(mu, mv)`: the
coordinate lies in the half-open metatile region stored by the constructor
if and only if the block `[mu * W, mu * W + W) × [mv * W, mv * W + W)` of the
metatile contains a tile `(tu, tv)` of `reg`. -/
theorem MetaTileIterator_region_covers (platShift : Nat) (platMask : Int)
    (mCoords : TilePoint) (map : Int) (reg : TileRegion) (mu mv : Int)
    (hs : platShift ≤ 30) (hm : platMask = 2 ^ platShift - 1)
    (hmin : reg.min.isInt16) (hmax : reg.max.isInt16)
    (hu : reg.min.u < reg.max.u) (hv : reg.min.v < reg.max.v) :
    (((MetaTileIterator.MetaTileIterator platShift platMask mCoords map reg).region.min.u ≤ mu ∧
      mu < (MetaTileIterator.MetaTileIterator platShift platMask mCoords map reg).region.max.u) ∧
     ((MetaTileIterator.MetaTileIterator platShift platMask mCoords map reg).region.min.v ≤ mv ∧
      mv < (MetaTileIterator.MetaTileIterator platShift platMask mCoords map reg).region.max.v)) ↔
    ∃ tu tv : Int,
      ((mu * 2 ^ platShift ≤ tu ∧ tu < mu * 2 ^ platShift + 2 ^ platShift) ∧
       (mv * 2 ^ platShift ≤ tv ∧ tv < mv * 2 ^ platShift + 2 ^ platShift)) ∧
      ((reg.min.u ≤ tu ∧ tu < reg.max.u) ∧ (reg.min.v ≤ tv ∧ tv < reg.max.v)) := by
  subst hm
  have hW : (0 : Int) < 2 ^ platShift := by positivity
  have e1 : (MetaTileIterator.MetaTileIterator platShift (2 ^ platShift - 1) mCoords map
      reg).region.min.u = reg.min.u / 2 ^ platShift := castInt16_intShr hmin.1 hs
  have e2 : (MetaTileIterator.MetaTileIterator platShift (2 ^ platShift - 1) mCoords map
      reg).region.max.u = (reg.max.u + (2 ^ platShift - 1)) / 2 ^ platShift :=
    castInt16_intShr_intAdd hmax.1 hs
  have e3 : (MetaTileIterator.MetaTileIterator platShift (2 ^ platShift - 1) mCoords map
      reg).region.min.v = reg.min.v / 2 ^ platShift := castInt16_intShr hmin.2.1 hs
  have e4 : (MetaTileIterator.MetaTileIterator platShift (2 ^ platShift - 1) mCoords map
      reg).region.max.v = (reg.max.v + (2 ^ platShift - 1)) / 2 ^ platShift :=
    castInt16_intShr_intAdd hmax.2.1 hs
  rw [e1, e2, e3, e4, block_meets_interval_iff _ _ mu _ hW hu,
    block_meets_interval_iff _ _ mv _ hW hv]
  constructor
  · rintro ⟨⟨tu, hbu, hru⟩, tv, hbv, hrv⟩
    exact ⟨tu, tv, ⟨hbu, hbv⟩, hru, hrv⟩
  · rintro ⟨tu, tv, ⟨hbu, hbv⟩, hru, hrv⟩
    exact ⟨⟨tu, hbu, hru⟩, tv, hbv, hrv⟩

theorem MetaTileIterator_region_covers_witness :
    (3 : Nat) ≤ 30 ∧ (7 : Int) = 2 ^ 3 - 1 ∧
    (TilePoint.mk (-9) 8 5).isInt16 ∧ (TilePoint.mk 17 40 9).isInt16 ∧
    (-9 : Int) < 17 ∧ (8 : Int) < 40 ∧
    ((((MetaTileIterator.MetaTileIterator 3 7 (TilePoint.mk 0 0 0) 1
        (TileRegion.mk (TilePoint.mk (-9) 8 5) (TilePoint.mk 17 40 9))).region.min.u ≤ -2 ∧
      -2 < (MetaTileIterator.MetaTileIterator 3 7 (TilePoint.mk 0 0 0) 1
        (TileRegion.mk (TilePoint.mk (-9) 8 5) (TilePoint.mk 17 40 9))).region.max.u) ∧
     ((MetaTileIterator.MetaTileIterator 3 7 (TilePoint.mk 0 0 0) 1
        (TileRegion.mk (TilePoint.mk (-9) 8 5) (TilePoint.mk 17 40 9))).region.min.v ≤ 4 ∧
      4 < (MetaTileIterator.MetaTileIterator 3 7 (TilePoint.mk 0 0 0) 1
        (TileRegion.mk (TilePoint.mk (-9) 8 5) (TilePoint.mk 17 40 9))).region.max.v)) ↔
    ∃ tu tv : Int,
      (((-2 : Int) * 2 ^ 3 ≤ tu ∧ tu < (-2 : Int) * 2 ^ 3 + 2 ^ 3) ∧
       ((4 : Int) * 2 ^ 3 ≤ tv ∧ tv < (4 : Int) * 2 ^ 3 + 2 ^ 3)) ∧
      (((-9 : Int) ≤ tu ∧ tu < 17) ∧ ((8 : Int) ≤ tv ∧ tv < 40))) :=
  ⟨by decide, by decide, by decide, by decide, by decide, by decide,
    MetaTileIterator_region_covers 3 7 (TilePoint.mk 0 0 0) 1
      (TileRegion.mk (TilePoint.mk (-9) 8 5) (TilePoint.mk 17 40 9)) (-2) 4
      (by decide) (by decide) (by decide) (by decide) (by decide) (by decide)⟩

/-! ## Ripped roofs -/

theorem Platform.roofRipID_eq (pl : Platform) (hf : pl.flags < 65536) :
    pl.roofRipID = pl.flags % 4096 := by
  unfold Platform.roofRipID intAnd
  have e2 : bits32 (0x0FFF : Int) = 2 ^ 12 - 1 := by decide
  rw [bits32_natCast (by omega), e2, Nat.and_pow_two_sub_one_eq_mod,
    ofBits32_of_lt (by omega)]
  unfold castUint16; omega

/-- C14: with the global `rippedRoofID` taken as an input, for every
platform (flags a `uint16`) and every 16-bit `rippedRoofID`,
`platformRipped` is true if and only if `rippedRoofID` is not 0 and
`roofRipID()`, the low 12 bits of the flags, equals it; with `rippedRoofID`
equal to 0 the platform is not ripped. -/
theorem platformRipped_iff (rippedRoofID : Nat) (pl : Platform)
    (hf : pl.flags < 65536) (_hr : rippedRoofID < 65536) :
    (platformRipped rippedRoofID pl = true ↔
      rippedRoofID ≠ 0 ∧ pl.roofRipID = rippedRoofID) ∧
    pl.roofRipID = pl.flags % 4096 ∧
    platformRipped 0 pl = false := by
  refine ⟨?_, Platform.roofRipID_eq pl hf, rfl⟩
  unfold platformRipped
  by_cases h0 : rippedRoofID ≠ 0
  · rw [if_pos h0]
    simp only [decide_eq_true_eq, Nat.cast_inj]
    exact ⟨fun h => ⟨h0, h⟩, fun h => h.2⟩
  · rw [if_neg h0]
    exact ⟨fun h => absurd h (by decide), fun h => absurd h.1 h0⟩

theorem platformRipped_iff_witness :
    (0x8005 : Nat) < 65536 ∧ (5 : Nat) < 65536 ∧
    ((platformRipped 5 (Platform.mk 0 0 0x8005 []) = true ↔
      (5 : Nat) ≠ 0 ∧ (Platform.mk 0 0 0x8005 []).roofRipID = 5) ∧
    (Platform.mk 0 0 0x8005 []).roofRipID = 0x8005 % 4096 ∧
    platformRipped 0 (Platform.mk 0 0 0x8005 []) = false) :=
  ⟨by decide, by decide,
    platformRipped_iff 5 (Platform.mk 0 0 0x8005 []) (by decide) (by decide)⟩

/-! ## Terrain types and category masks -/

/-- C15 (as stated, refuted): the enum has 20 terrain types, not 16;
`terrNumIce` is a terrain type whose bit `1 << 16` is not below `2 ^ 16`,
and `terrainSurface`, `terrainSolidSurface`, `terrainRaised`,
`terrainImpassable` and `terrainTransparent` do not fit in 16 bits. -/
theorem terrain_masks_exceed_16_bits :
    terrainTypes.length ≠ 16 ∧
    (terrNumIce ∈ terrainTypes ∧ ¬ intShl 1 terrNumIce < 2 ^ 16) ∧
    ¬ terrainSurface < 2 ^ 16 ∧ ¬ terrainSolidSurface < 2 ^ 16 ∧
    ¬ terrainRaised < 2 ^ 16 ∧ ¬ terrainImpassable < 2 ^ 16 ∧
    ¬ terrainTransparent < 2 ^ 16 := by
  decide

/-- C15 (amended): there are exactly 20 terrain types, numbered 0 to 19
without repetition; for every terrain type number `t` of the enum the
constant `1 << t` is positive and below `2 ^ 20`, so every terrain category
mask (`terrainSurface`, `terrainSolidSurface`, `terrainRaised`,
`terrainImpassable`, `terrainSlow`, `terrainInsubstantial`,
`terrainTransparent`) is non-negative and fits in 20 bits. -/
theorem terrain_masks_fit_20_bits :
    terrainTypes.length = 20 ∧ terrainTypes = List.range 20 ∧
    (∀ t ∈ terrainTypes, 0 < intShl 1 t ∧ intShl 1 t < 2 ^ 20) ∧
    (0 ≤ terrainSurface ∧ terrainSurface < 2 ^ 20) ∧
    (0 ≤ terrainSolidSurface ∧ terrainSolidSurface < 2 ^ 20) ∧
    (0 ≤ terrainRaised ∧ terrainRaised < 2 ^ 20) ∧
    (0 ≤ terrainImpassable ∧ terrainImpassable < 2 ^ 20) ∧
    (0 ≤ terrainSlow ∧ terrainSlow < 2 ^ 20) ∧
    (0 ≤ terrainInsubstantial ∧ terrainInsubstantial < 2 ^ 20) ∧
    (0 ≤ terrainTransparent ∧ terrainTransparent < 2 ^ 20) := by
  decide

/-! ## Built-in behavior of an active item -/

/-- C16 (as stated, refuted): for the 16-bit flag word `0xFFFF`,
`builtInBehavior` returns 7, which is none of `builtInNone`, `builtInLamp`,
`builtInDoor`, `builtInTransporter`. -/
theorem builtInBehavior_not_named :
    (ActiveItem.mk 0 0 0 1 ⟨0, 0, 0, 0, 0, 0, 0, 0, 0⟩
      ⟨0, 0, 0, 0, 0, 0xFFFF, 0, 0, 0, 0⟩).builtInBehavior = 7 ∧
    ¬ ((ActiveItem.mk 0 0 0 1 ⟨0, 0, 0, 0, 0, 0, 0, 0, 0⟩
          ⟨0, 0, 0, 0, 0, 0xFFFF, 0, 0, 0, 0⟩).builtInBehavior = ActiveItem.builtInNone ∨
       (ActiveItem.mk 0 0 0 1 ⟨0, 0, 0, 0, 0, 0, 0, 0, 0⟩
          ⟨0, 0, 0, 0, 0, 0xFFFF, 0, 0, 0, 0⟩).builtInBehavior = ActiveItem.builtInLamp ∨
       (ActiveItem.mk 0 0 0 1 ⟨0, 0, 0, 0, 0, 0, 0, 0, 0⟩
          ⟨0, 0, 0, 0, 0, 0xFFFF, 0, 0, 0, 0⟩).builtInBehavior = ActiveItem.builtInDoor ∨
       (ActiveItem.mk 0 0 0 1 ⟨0, 0, 0, 0, 0, 0, 0, 0, 0⟩
          ⟨0, 0, 0, 0, 0, 0xFFFF, 0, 0, 0, 0⟩).builtInBehavior =
        ActiveItem.builtInTransporter) := by
  decide

/-- C16 (amended): for every 16-bit `scriptFlags` value, `builtInBehavior`
returns the top three bits of the word, `scriptFlags / 8192`, a value
between 0 and 7; it is one of the four built-in behavior kinds `builtInNone`
(0), `builtInLamp` (1), `builtInDoor` (2), `builtInTransporter` (3) exactly
when bit 15 of `scriptFlags` is clear. -/
theorem builtInBehavior_top_three_bits (ai : ActiveItem) (h : ai.inst.scriptFlags < 65536) :
    ai.builtInBehavior = ai.inst.scriptFlags / 8192 ∧ ai.builtInBehavior ≤ 7 ∧
    ((ai.builtInBehavior = ActiveItem.builtInNone ∨
      ai.builtInBehavior = ActiveItem.builtInLamp ∨
      ai.builtInBehavior = ActiveItem.builtInDoor ∨
      ai.builtInBehavior = ActiveItem.builtInTransporter) ↔
     ai.inst.scriptFlags < 32768) := by
  have e : ai.builtInBehavior = ai.inst.scriptFlags / 8192 := by
    rw [ActiveItem.builtInBehavior_eq, Nat.shiftRight_eq_div_pow]
    omega
  have n0 : ActiveItem.builtInNone = 0 := rfl
  have n1 : ActiveItem.builtInLamp = 1 := rfl
  have n2 : ActiveItem.builtInDoor = 2 := rfl
  have n3 : ActiveItem.builtInTransporter = 3 := rfl
  rw [e, n0, n1, n2, n3]
  refine ⟨rfl, by omega, ?_⟩
  omega

theorem builtInBehavior_top_three_bits_witness :
    (0x4A12 : Nat) < 65536 ∧
    ((ActiveItem.mk 0 0 0 1 ⟨0, 0, 0, 0, 0, 0, 0, 0, 0⟩
        ⟨0, 0, 0, 0, 0, 0x4A12, 0, 0, 0, 0⟩).builtInBehavior = 0x4A12 / 8192 ∧
     (ActiveItem.mk 0 0 0 1 ⟨0, 0, 0, 0, 0, 0, 0, 0, 0⟩
        ⟨0, 0, 0, 0, 0, 0x4A12, 0, 0, 0, 0⟩).builtInBehavior ≤ 7 ∧
     (((ActiveItem.mk 0 0 0 1 ⟨0, 0, 0, 0, 0, 0, 0, 0, 0⟩
          ⟨0, 0, 0, 0, 0, 0x4A12, 0, 0, 0, 0⟩).builtInBehavior = ActiveItem.builtInNone ∨
       (ActiveItem.mk 0 0 0 1 ⟨0, 0, 0, 0, 0, 0, 0, 0, 0⟩
          ⟨0, 0, 0, 0, 0, 0x4A12, 0, 0, 0, 0⟩).builtInBehavior = ActiveItem.builtInLamp ∨
       (ActiveItem.mk 0 0 0 1 ⟨0, 0, 0, 0, 0, 0, 0, 0, 0⟩
          ⟨0, 0, 0, 0, 0, 0x4A12, 0, 0, 0, 0⟩).builtInBehavior = ActiveItem.builtInDoor ∨
       (ActiveItem.mk 0 0 0 1 ⟨0, 0, 0, 0, 0, 0, 0, 0, 0⟩
          ⟨0, 0, 0, 0, 0, 0x4A12, 0, 0, 0, 0⟩).builtInBehavior =
        ActiveItem.builtInTransporter) ↔
      (0x4A12 : Nat) < 32768)) :=
  ⟨by decide, builtInBehavior_top_three_bits
    (ActiveItem.mk 0 0 0 1 ⟨0, 0, 0, 0, 0, 0, 0, 0, 0⟩ ⟨0, 0, 0, 0, 0, 0x4A12, 0, 0, 0, 0⟩)
    (by decide)⟩

/-! ## Platform flags -/

/-- C17: the four cutaway-direction platform flags are one and the same
bit, `plCutUPos = plCutUNeg = plCutVPos = plCutVNeg = 1 << 13`, so testing a
flags word against any one of them gives the same result as testing it
against any other, and they are distinct from (and share no bit with)
`plVisible = 1 << 15`, `plModified = 1 << 14` and `plCutaway = 1 << 0`. -/
theorem platform_cut_flags_one_bit :
    (plCutUPos = intShl 1 13 ∧ plCutUNeg = plCutUPos ∧ plCutVPos = plCutUPos ∧
      plCutVNeg = plCutUPos ∧ plCutUPos = 8192) ∧
    (∀ flags : Nat,
      (intAnd (flags : Int) plCutUPos ≠ 0 ↔ intAnd (flags : Int) plCutUNeg ≠ 0) ∧
      (intAnd (flags : Int) plCutUPos ≠ 0 ↔ intAnd (flags : Int) plCutVPos ≠ 0) ∧
      (intAnd (flags : Int) plCutUPos ≠ 0 ↔ intAnd (flags : Int) plCutVNeg ≠ 0) ∧
      (intAnd (flags : Int) plCutUNeg ≠ 0 ↔ intAnd (flags : Int) plCutVPos ≠ 0) ∧
      (intAnd (flags : Int) plCutUNeg ≠ 0 ↔ intAnd (flags : Int) plCutVNeg ≠ 0) ∧
      (intAnd (flags : Int) plCutVPos ≠ 0 ↔ intAnd (flags : Int) plCutVNeg ≠ 0)) ∧
    (plVisible = 32768 ∧ plModified = 16384 ∧ plCutaway = 1) ∧
    (plCutUPos ≠ plVisible ∧ plCutUPos ≠ plModified ∧ plCutUPos ≠ plCutaway) ∧
    (intAnd plCutUPos plVisible = 0 ∧ intAnd plCutUPos plModified = 0 ∧
      intAnd plCutUPos plCutaway = 0) := by
  have e1 : plCutUNeg = plCutUPos := rfl
  have e2 : plCutVPos = plCutUPos := rfl
  have e3 : plCutVNeg = plCutUPos := rfl
  refine ⟨⟨rfl, e1, e2, e3, by decide⟩, ?_, by decide, by decide, by decide⟩
  intro flags
  rw [e1, e2, e3]
  exact ⟨Iff.rfl, Iff.rfl, Iff.rfl, Iff.rfl, Iff.rfl, Iff.rfl⟩

/-! ## Lock toggle -/

/-- C18: for every active item instance and every key code `k` that differs
from the instance's `lockType()`, `acceptLockToggle enactor k` returns false
and leaves `isLocked()` (indeed the whole instance) unchanged. -/
theorem acceptLockToggle_mismatch (ai : ActiveItem) (enactor k : Nat)
    (hk : k ≠ ai.lockType) :
    (ai.acceptLockToggle enactor k).1 = false ∧
    (ai.acceptLockToggle enactor k).2.isLocked = ai.isLocked ∧
    (ai.acceptLockToggle enactor k).2 = ai := by
  unfold ActiveItem.acceptLockToggle
  rw [if_neg hk]
  exact ⟨rfl, rfl, rfl⟩

theorem acceptLockToggle_mismatch_witness :
    (0x13 : Nat) ≠ (ActiveItem.mk 0 0 0 1 ⟨0, 0, 0, 0, 0, 0, 0, 0, 0⟩
        ⟨0, 10, 20, 0, 0, 0x4312, 0, 0, 0, 0⟩).lockType ∧
    (((ActiveItem.mk 0 0 0 1 ⟨0, 0, 0, 0, 0, 0, 0, 0, 0⟩
        ⟨0, 10, 20, 0, 0, 0x4312, 0, 0, 0, 0⟩).acceptLockToggle 1 0x13).1 = false ∧
     ((ActiveItem.mk 0 0 0 1 ⟨0, 0, 0, 0, 0, 0, 0, 0, 0⟩
        ⟨0, 10, 20, 0, 0, 0x4312, 0, 0, 0, 0⟩).acceptLockToggle 1 0x13).2.isLocked =
      (ActiveItem.mk 0 0 0 1 ⟨0, 0, 0, 0, 0, 0, 0, 0, 0⟩
        ⟨0, 10, 20, 0, 0, 0x4312, 0, 0, 0, 0⟩).isLocked ∧
     ((ActiveItem.mk 0 0 0 1 ⟨0, 0, 0, 0, 0, 0, 0, 0, 0⟩
        ⟨0, 10, 20, 0, 0, 0x4312, 0, 0, 0, 0⟩).acceptLockToggle 1 0x13).2 =
      ActiveItem.mk 0 0 0 1 ⟨0, 0, 0, 0, 0, 0, 0, 0, 0⟩
        ⟨0, 10, 20, 0, 0, 0x4312, 0, 0, 0, 0⟩) :=
  ⟨by decide, acceptLockToggle_mismatch
    (ActiveItem.mk 0 0 0 1 ⟨0, 0, 0, 0, 0, 0, 0, 0, 0⟩ ⟨0, 10, 20, 0, 0, 0x4312, 0, 0, 0, 0⟩)
    1 0x13 (by decide)⟩

/-! ## Subtile masks -/

/-- The 16-bit pattern of the mask of subtile `(u, v)` is the single bit
`4 * u + v`. -/
theorem bits16_calcSubTileMask (u v : Int) (hu : 0 ≤ u ∧ u ≤ 3) (hv : 0 ≤ v ∧ v ≤ 3) :
    bits16 (calcSubTileMask u v) = 2 ^ (4 * u + v).toNat := by
  obtain rfl | rfl | rfl | rfl : u = 0 ∨ u = 1 ∨ u = 2 ∨ u = 3 := by omega
  all_goals
    obtain rfl | rfl | rfl | rfl : v = 0 ∨ v = 1 ∨ v = 2 ∨ v = 3 := by omega
    all_goals decide

/-- C19: for every `u` and `v` between 0 and 3, `calcSubTileMask u v`, read
as a 16-bit pattern, has exactly one bit set, at position `4 * u + v`; the 16
subtiles have pairwise distinct masks whose union is all 16 bits; and moving
one subtile in `u` or in `v` shifts the mask left by `subTileMaskUShift` (4)
or by `subTileMaskVShift` (1). -/
theorem calcSubTileMask_single_bit (u v : Int) (hu : 0 ≤ u ∧ u ≤ 3) (hv : 0 ≤ v ∧ v ≤ 3) :
    bits16 (calcSubTileMask u v) = 2 ^ (4 * u + v).toNat ∧
    (∀ i : Nat, (bits16 (calcSubTileMask u v)).testBit i = true ↔ i = (4 * u + v).toNat) ∧
    (∀ u' v' : Int, 0 ≤ u' ∧ u' ≤ 3 → 0 ≤ v' ∧ v' ≤ 3 →
      calcSubTileMask u' v' = calcSubTileMask u v → u' = u ∧ v' = v) ∧
    ((List.range 16).foldl
      (fun acc k => acc ||| bits16 (calcSubTileMask ((k / 4 : Nat) : Int) ((k % 4 : Nat) : Int)))
      0 = 0xFFFF) ∧
    (subTileMaskUShift = 4 ∧ subTileMaskVShift = 1) ∧
    (u + 1 ≤ 3 →
      bits16 (calcSubTileMask (u + 1) v) = bits16 (calcSubTileMask u v) <<< subTileMaskUShift) ∧
    (v + 1 ≤ 3 →
      bits16 (calcSubTileMask u (v + 1)) = bits16 (calcSubTileMask u v) <<< subTileMaskVShift) := by
  have hbit := bits16_calcSubTileMask u v hu hv
  refine ⟨hbit, ?_, ?_, by decide, ⟨rfl, rfl⟩, ?_, ?_⟩
  · intro i
    rw [hbit, Nat.testBit_two_pow, decide_eq_true_eq]
    exact ⟨fun h => h.symm, fun h => h.symm⟩
  · intro u' v' hu' hv' heq
    have h' := bits16_calcSubTileMask u' v' hu' hv'
    rw [heq, hbit] at h'
    have := Nat.pow_right_injective (le_refl 2) h'
    omega
  · intro h
    rw [bits16_calcSubTileMask (u + 1) v ⟨by omega, h⟩ hv, hbit, Nat.shiftLeft_eq,
      ← Nat.pow_add]
    congr 1
    unfold subTileMaskUShift; omega
  · intro h
    rw [bits16_calcSubTileMask u (v + 1) hu ⟨by omega, h⟩, hbit, Nat.shiftLeft_eq,
      ← Nat.pow_add]
    congr 1
    unfold subTileMaskVShift; omega

theorem calcSubTileMask_single_bit_witness :
    (0 ≤ (1 : Int) ∧ (1 : Int) ≤ 3) ∧ (0 ≤ (2 : Int) ∧ (2 : Int) ≤ 3) ∧
    (bits16 (calcSubTileMask 1 2) = 2 ^ (4 * 1 + 2 : Int).toNat ∧
    (∀ i : Nat, (bits16 (calcSubTileMask 1 2)).testBit i = true ↔ i = (4 * 1 + 2 : Int).toNat) ∧
    (∀ u' v' : Int, 0 ≤ u' ∧ u' ≤ 3 → 0 ≤ v' ∧ v' ≤ 3 →
      calcSubTileMask u' v' = calcSubTileMask 1 2 → u' = 1 ∧ v' = 2) ∧
    ((List.range 16).foldl
      (fun acc k => acc ||| bits16 (calcSubTileMask ((k / 4 : Nat) : Int) ((k % 4 : Nat) : Int)))
      0 = 0xFFFF) ∧
    (subTileMaskUShift = 4 ∧ subTileMaskVShift = 1) ∧
    ((1 : Int) + 1 ≤ 3 →
      bits16 (calcSubTileMask (1 + 1) 2) = bits16 (calcSubTileMask 1 2) <<< subTileMaskUShift) ∧
    ((2 : Int) + 1 ≤ 3 →
      bits16 (calcSubTileMask 1 (2 + 1)) = bits16 (calcSubTileMask 1 2) <<< subTileMaskVShift)) :=
  ⟨by decide, by decide, calcSubTileMask_single_bit 1 2 (by decide) (by decide)⟩

/-! ## Platform flags and the roof-rip ID -/

/-- Setting or clearing one of the bits 12 to 15 of a 16-bit flags word
keeps the word within 16 bits and keeps its low 12 bits. -/
theorem high_flag_keeps_low_bits (f k : Nat) (hf : f < 65536) (hk : 12 ≤ k ∧ k < 16) :
    (castUint16 (intOr (f : Int) (intShl 1 k)) < 65536 ∧
      castUint16 (intOr (f : Int) (intShl 1 k)) % 4096 = f % 4096) ∧
    (castUint16 (intAnd (f : Int) (intNot (intShl 1 k))) < 65536 ∧
      castUint16 (intAnd (f : Int) (intNot (intShl 1 k))) % 4096 = f % 4096) := by
  have low : ∀ g : Nat, (∀ i, i < 12 → g.testBit i = f.testBit i) → g % 4096 = f % 4096 := by
    intro g hg
    apply Nat.eq_of_testBit_eq
    intro i
    have e : (4096 : Nat) = 2 ^ 12 := by norm_num
    rw [e, Nat.testBit_mod_two_pow, Nat.testBit_mod_two_pow]
    by_cases hi : i < 12
    · rw [hg i hi]
    · simp [hi]
  refine ⟨⟨by unfold castUint16; omega, ?_⟩, ⟨by unfold castUint16; omega, ?_⟩⟩
  · rw [flag_set f k hf hk.2]
    apply low
    intro i hi
    have : ¬ k = i := by omega
    rw [flag_set_testBit]; simp [this]
  · rw [flag_clear f k hf hk.2]
    apply low
    intro i hi
    have : ¬ k = i := by omega
    rw [flag_clear_testBit f k i hf hk.2]; simp [this]

/-- Each of `plVisible`, `plModified` and the four cutaway-direction flags is
a single bit among the bits 13 to 15. -/
theorem high_platform_flag_cases (x : Int)
    (hx : x ∈ [plVisible, plModified, plCutUPos, plCutUNeg, plCutVPos, plCutVNeg]) :
    ∃ k : Nat, (12 ≤ k ∧ k < 16) ∧ x = intShl 1 k := by
  simp only [List.mem_cons, List.mem_singleton, List.not_mem_nil, or_false] at hx
  rcases hx with rfl | rfl | rfl | rfl | rfl | rfl
  · exact ⟨15, by decide, rfl⟩
  · exact ⟨14, by decide, rfl⟩
  · exact ⟨13, by decide, rfl⟩
  · exact ⟨13, by decide, rfl⟩
  · exact ⟨13, by decide, rfl⟩
  · exact ⟨13, by decide, rfl⟩

/-- Setting (`flags |= x`) or clearing (`flags &= ~x`) one of `plVisible`,
`plModified` and the cutaway-direction flags leaves `roofRipID()` as it
was, and the flags word within 16 bits. -/
theorem Platform.roofRipID_high_flag (pl : Platform) (hf : pl.flags < 65536) (x : Int)
    (hx : x ∈ [plVisible, plModified, plCutUPos, plCutUNeg, plCutVPos, plCutVNeg]) :
    ({ pl with flags := castUint16 (intOr (pl.flags : Int) x) } : Platform).roofRipID =
      pl.roofRipID ∧
    ({ pl with flags := castUint16 (intAnd (pl.flags : Int) (intNot x)) } : Platform).roofRipID =
      pl.roofRipID := by
  obtain ⟨k, hk, rfl⟩ := high_platform_flag_cases x hx
  obtain ⟨⟨s1, s2⟩, c1, c2⟩ := high_flag_keeps_low_bits pl.flags k hf hk
  constructor
  · rw [Platform.roofRipID_eq _ s1, Platform.roofRipID_eq pl hf]; exact s2
  · rw [Platform.roofRipID_eq _ c1, Platform.roofRipID_eq pl hf]; exact c2

/-- C21: for every platform flags word `f` (a `uint16`), `roofRipID()` is
`f mod 4096`, hence between 0 and 4095, and it is unchanged by setting or
clearing any of `plVisible`, `plModified`, `plCutUPos`, `plCutUNeg`,
`plCutVPos` or `plCutVNeg` in `f`. -/
theorem roofRipID_mod_4096_frame (pl : Platform) (hf : pl.flags < 65536) :
    pl.roofRipID = pl.flags % 4096 ∧ (0 ≤ pl.roofRipID ∧ pl.roofRipID ≤ 4095) ∧
    ∀ x ∈ [plVisible, plModified, plCutUPos, plCutUNeg, plCutVPos, plCutVNeg],
      ({ pl with flags := castUint16 (intOr (pl.flags : Int) x) } : Platform).roofRipID =
        pl.roofRipID ∧
      ({ pl with flags := castUint16 (intAnd (pl.flags : Int) (intNot x)) } : Platform).roofRipID =
        pl.roofRipID := by
  have e := Platform.roofRipID_eq pl hf
  refine ⟨e, ⟨Nat.zero_le _, by omega⟩, ?_⟩
  intro x hx
  exact Platform.roofRipID_high_flag pl hf x hx

theorem roofRipID_mod_4096_frame_witness :
    (0x6A5C : Nat) < 65536 ∧
    ((Platform.mk 0 0 0x6A5C []).roofRipID = 0x6A5C % 4096 ∧
     (0 ≤ (Platform.mk 0 0 0x6A5C []).roofRipID ∧ (Platform.mk 0 0 0x6A5C []).roofRipID ≤ 4095) ∧
     ∀ x ∈ [plVisible, plModified, plCutUPos, plCutUNeg, plCutVPos, plCutVNeg],
      (Platform.mk 0 0 (castUint16 (intOr ((0x6A5C : Nat) : Int) x)) []).roofRipID =
        (Platform.mk 0 0 0x6A5C []).roofRipID ∧
      (Platform.mk 0 0 (castUint16 (intAnd ((0x6A5C : Nat) : Int) (intNot x))) []).roofRipID =
        (Platform.mk 0 0 0x6A5C []).roofRipID) :=
  ⟨by decide, roofRipID_mod_4096_frame (Platform.mk 0 0 0x6A5C []) (by decide)⟩

/-- C22 (as stated, refuted): `plCutaway` is `1 << 0`, so `plCutaway & 0x0FFF`
is 1 and not 0. On a platform with flags 4, setting `plCutaway` turns
`roofRipID()` from 4 into 5 and `platformRipped` (with `rippedRoofID = 5`)
from false into true; on flags 5, clearing it turns `roofRipID()` into 4 and
`platformRipped` from true into false. -/
theorem plCutaway_inside_roofRipID_field :
    intAnd plCutaway 0x0FFF = 1 ∧ intAnd plCutaway 0x0FFF ≠ 0 ∧
    ((Platform.mk 0 0 4 []).roofRipID = 4 ∧
     (Platform.mk 0 0 (castUint16 (intOr ((4 : Nat) : Int) plCutaway)) []).roofRipID = 5 ∧
     platformRipped 5 (Platform.mk 0 0 4 []) = false ∧
     platformRipped 5
       (Platform.mk 0 0 (castUint16 (intOr ((4 : Nat) : Int) plCutaway)) []) = true) ∧
    ((Platform.mk 0 0 5 []).roofRipID = 5 ∧
     (Platform.mk 0 0 (castUint16 (intAnd ((5 : Nat) : Int) (intNot plCutaway))) []).roofRipID
       = 4 ∧
     platformRipped 5 (Platform.mk 0 0 5 []) = true ∧
     platformRipped 5
       (Platform.mk 0 0 (castUint16 (intAnd ((5 : Nat) : Int) (intNot plCutaway))) [])
       = false) := by
  decide

/-- C22 (amended): each of `plVisible`, `plModified`, `plCutUPos`,
`plCutUNeg`, `plCutVPos` and `plCutVNeg` lies outside the 12-bit roof-rip ID
field of `Platform::flags` (the flag and-ed with `0x0FFF` is 0), so setting
or clearing any of them never changes `roofRipID()` and therefore never
changes `platformRipped()`, whatever `rippedRoofID` is. -/
theorem high_platform_flags_outside_roofRipID (pl : Platform) (hf : pl.flags < 65536) :
    (∀ x ∈ [plVisible, plModified, plCutUPos, plCutUNeg, plCutVPos, plCutVNeg],
      intAnd x 0x0FFF = 0) ∧
    ∀ x ∈ [plVisible, plModified, plCutUPos, plCutUNeg, plCutVPos, plCutVNeg],
      (({ pl with flags := castUint16 (intOr (pl.flags : Int) x) } : Platform).roofRipID =
          pl.roofRipID ∧
        ∀ rippedRoofID : Nat,
          platformRipped rippedRoofID
            { pl with flags := castUint16 (intOr (pl.flags : Int) x) } =
          platformRipped rippedRoofID pl) ∧
      (({ pl with flags := castUint16 (intAnd (pl.flags : Int) (intNot x)) } :
          Platform).roofRipID = pl.roofRipID ∧
        ∀ rippedRoofID : Nat,
          platformRipped rippedRoofID
            { pl with flags := castUint16 (intAnd (pl.flags : Int) (intNot x)) } =
          platformRipped rippedRoofID pl) := by
  refine ⟨by decide, ?_⟩
  intro x hx
  obtain ⟨h1, h2⟩ := Platform.roofRipID_high_flag pl hf x hx
  refine ⟨⟨h1, ?_⟩, ⟨h2, ?_⟩⟩
  · intro rid
    unfold platformRipped
    rw [h1]
  · intro rid
    unfold platformRipped
    rw [h2]

theorem high_platform_flags_outside_roofRipID_witness :
    (0x6A5C : Nat) < 65536 ∧
    ((∀ x ∈ [plVisible, plModified, plCutUPos, plCutUNeg, plCutVPos, plCutVNeg],
      intAnd x 0x0FFF = 0) ∧
    ∀ x ∈ [plVisible, plModified, plCutUPos, plCutUNeg, plCutVPos, plCutVNeg],
      ((Platform.mk 0 0 (castUint16 (intOr ((0x6A5C : Nat) : Int) x)) []).roofRipID =
          (Platform.mk 0 0 0x6A5C []).roofRipID ∧
        ∀ rippedRoofID : Nat,
          platformRipped rippedRoofID
            (Platform.mk 0 0 (castUint16 (intOr ((0x6A5C : Nat) : Int) x)) []) =
          platformRipped rippedRoofID (Platform.mk 0 0 0x6A5C [])) ∧
      ((Platform.mk 0 0 (castUint16 (intAnd ((0x6A5C : Nat) : Int) (intNot x))) []).roofRipID =
          (Platform.mk 0 0 0x6A5C []).roofRipID ∧
        ∀ rippedRoofID : Nat,
          platformRipped rippedRoofID
            (Platform.mk 0 0 (castUint16 (intAnd ((0x6A5C : Nat) : Int) (intNot x))) []) =
          platformRipped rippedRoofID (Platform.mk 0 0 0x6A5C []))) :=
  ⟨by decide, high_platform_flags_outside_roofRipID (Platform.mk 0 0 0x6A5C []) (by decide)⟩

/-! ## Instance states -/

/-- C23: with `stateArray` read as a map from (map number, state index) to a
byte, for every instance, map number `m` and state `s`: after
`setInstanceState m s` the call `getInstanceState m` returns `s`, the entry
of every other (map, state index) pair is unchanged, and the instance itself
(in particular `scriptFlags`, `stateIndex`, `u`, `v`, `h`) is unchanged. -/
theorem getInstanceState_setInstanceState (ai : ActiveItem) (stateArray : StateArray)
    (m : Int) (s : Nat) (_hm : isInt16 m) (_hs : s < 256) :
    (ai.setInstanceState stateArray m s).1.getInstanceState
        (ai.setInstanceState stateArray m s).2 m = s ∧
    (∀ (m' : Int) (i' : Nat), (m', i') ≠ (m, ai.inst.stateIndex) →
      (ai.setInstanceState stateArray m s).2 m' i' = stateArray m' i') ∧
    ((ai.setInstanceState stateArray m s).1 = ai ∧
     (ai.setInstanceState stateArray m s).1.inst.scriptFlags = ai.inst.scriptFlags ∧
     (ai.setInstanceState stateArray m s).1.inst.stateIndex = ai.inst.stateIndex ∧
     (ai.setInstanceState stateArray m s).1.inst.u = ai.inst.u ∧
     (ai.setInstanceState stateArray m s).1.inst.v = ai.inst.v ∧
     (ai.setInstanceState stateArray m s).1.inst.h = ai.inst.h) := by
  refine ⟨?_, ?_, rfl, rfl, rfl, rfl, rfl, rfl⟩
  · show (if m = m ∧ ai.inst.stateIndex = ai.inst.stateIndex then s
      else stateArray m ai.inst.stateIndex) = s
    rw [if_pos ⟨rfl, rfl⟩]
  · intro m' i' hne
    show (if m' = m ∧ i' = ai.inst.stateIndex then s else stateArray m' i') = stateArray m' i'
    rw [if_neg]
    rintro ⟨h1, h2⟩
    exact hne (by rw [h1, h2])

theorem getInstanceState_setInstanceState_witness :
    isInt16 (2 : Int) ∧ (5 : Nat) < 256 ∧
    (((ActiveItem.mk 0 0 0 1 ⟨0, 0, 0, 0, 0, 0, 0, 0, 0⟩
        ⟨3, 10, 20, 0, 7, 0x4312, 0, 0, 0, 0⟩).setInstanceState (fun _ _ => 1) 2 5).1.getInstanceState
        ((ActiveItem.mk 0 0 0 1 ⟨0, 0, 0, 0, 0, 0, 0, 0, 0⟩
          ⟨3, 10, 20, 0, 7, 0x4312, 0, 0, 0, 0⟩).setInstanceState (fun _ _ => 1) 2 5).2 2 = 5 ∧
    (∀ (m' : Int) (i' : Nat), (m', i') ≠ ((2 : Int), (7 : Nat)) →
      ((ActiveItem.mk 0 0 0 1 ⟨0, 0, 0, 0, 0, 0, 0, 0, 0⟩
        ⟨3, 10, 20, 0, 7, 0x4312, 0, 0, 0, 0⟩).setInstanceState (fun _ _ => 1) 2 5).2 m' i' =
        1) ∧
    (((ActiveItem.mk 0 0 0 1 ⟨0, 0, 0, 0, 0, 0, 0, 0, 0⟩
        ⟨3, 10, 20, 0, 7, 0x4312, 0, 0, 0, 0⟩).setInstanceState (fun _ _ => 1) 2 5).1 =
      ActiveItem.mk 0 0 0 1 ⟨0, 0, 0, 0, 0, 0, 0, 0, 0⟩ ⟨3, 10, 20, 0, 7, 0x4312, 0, 0, 0, 0⟩ ∧
     ((ActiveItem.mk 0 0 0 1 ⟨0, 0, 0, 0, 0, 0, 0, 0, 0⟩
        ⟨3, 10, 20, 0, 7, 0x4312, 0, 0, 0, 0⟩).setInstanceState (fun _ _ => 1) 2 5).1.inst.scriptFlags
      = 0x4312 ∧
     ((ActiveItem.mk 0 0 0 1 ⟨0, 0, 0, 0, 0, 0, 0, 0, 0⟩
        ⟨3, 10, 20, 0, 7, 0x4312, 0, 0, 0, 0⟩).setInstanceState (fun _ _ => 1) 2 5).1.inst.stateIndex
      = 7 ∧
     ((ActiveItem.mk 0 0 0 1 ⟨0, 0, 0, 0, 0, 0, 0, 0, 0⟩
        ⟨3, 10, 20, 0, 7, 0x4312, 0, 0, 0, 0⟩).setInstanceState (fun _ _ => 1) 2 5).1.inst.u = 10 ∧
     ((ActiveItem.mk 0 0 0 1 ⟨0, 0, 0, 0, 0, 0, 0, 0, 0⟩
        ⟨3, 10, 20, 0, 7, 0x4312, 0, 0, 0, 0⟩).setInstanceState (fun _ _ => 1) 2 5).1.inst.v = 20 ∧
     ((ActiveItem.mk 0 0 0 1 ⟨0, 0, 0, 0, 0, 0, 0, 0, 0⟩
        ⟨3, 10, 20, 0, 7, 0x4312, 0, 0, 0, 0⟩).setInstanceState (fun _ _ => 1) 2 5).1.inst.h = 0)) :=
  ⟨by decide, by decide,
    getInstanceState_setInstanceState
      (ActiveItem.mk 0 0 0 1 ⟨0, 0, 0, 0, 0, 0, 0, 0, 0⟩ ⟨3, 10, 20, 0, 7, 0x4312, 0, 0, 0, 0⟩)
      (fun _ _ => 1) 2 5 (by decide) (by decide)⟩

/-! ## Consistency of the terrain category masks -/

/-- C24: the terrain category masks are consistent. No terrain type is both
transparent and impassable (`terrainTransparent & terrainImpassable` is 0),
so `terrainSurface` and `terrainInsubstantial` are each disjoint from
`terrainRaised`; `terrainSurface` and `terrainInsubstantial` are disjoint;
`terrainSolidSurface` is `terrainSurface` with `terrainWater` removed;
`terrainImpassable` equals `terrainRaised`; and `terrainSupportingRaised` is
a subset of `terrainRaised`. -/
theorem terrain_category_masks_consistent :
    intAnd terrainTransparent terrainImpassable = 0 ∧
    (intAnd terrainSurface terrainRaised = 0 ∧ intAnd terrainInsubstantial terrainRaised = 0) ∧
    intAnd terrainSurface terrainInsubstantial = 0 ∧
    (terrainSolidSurface = intAnd terrainSurface (intNot terrainWater) ∧
      intAnd terrainSurface terrainWater = terrainWater ∧
      intOr terrainSolidSurface terrainWater = terrainSurface ∧
      intAnd terrainSolidSurface terrainWater = 0) ∧
    terrainImpassable = terrainRaised ∧
    (intAnd terrainSupportingRaised terrainRaised = terrainSupportingRaised ∧
      intAnd terrainSupportingRaised (intNot terrainRaised) = 0) := by
  decide

end Saga2
